import Mathlib

/-!
A shallow embedding of the Turbinia orchestration core, verified against its
natural-language specification.

The embedding covers:
* the Evidence data model, its state flags and its serialization
  (`turbinia/evidence/interface.py`),
* the `preprocess` / `postprocess` wrappers and the parent-evidence chain
  traversal, with the variant hooks (`_preprocess` / `_postprocess`) passed in
  as functions, since they are dynamically dispatched in the source,
* the resource-claim bookkeeping used by resource-tracked evidence; the
  `turbinia.processors.resource_manager` module itself is not part of the
  sources, so its two operations are modelled from the specification text,
* the statistics calculation (`TurbiniaStats` in `turbinia/client.py`),
* the manager registry (`turbinia/manager_interface.py`) together with the
  Python class-attribute resolution that makes subclasses share the base
  class registry dict.

External forensic tools (mount helpers, losetup, cloud attachment, ...) are
opaque collaborators of the engine; every call into them is modelled as a
function parameter so the theorems quantify over their behaviour.  Logging
calls have no modelled effect.  Observable actions of the wrappers (hook
invocations, file-lock scopes, resource-table operations) are recorded in an
event trace.
-/

namespace Turbinia

/-- A `TurbiniaException` (raised throughout the codebase); carries its
message text. -/
structure TurbiniaException where
  message : String
deriving Repr, DecidableEq

/-- A Python `KeyError`, raised by the manager registry. -/
structure KeyError where
  message : String
deriving Repr, DecidableEq

/-- Python truthiness of an optional string: `None` and the empty string are
falsy. -/
def strTruthy : Option String → Bool
  | none => false
  | some s => s != ""

/-- The `EvidenceState` IntEnum (evidence/interface.py lines 171-180): the
closed set of runtime state flags of Evidence. -/
inductive EvidenceState where
  | MOUNTED
  | ATTACHED
  | DECOMPRESSED
  | CONTAINER_MOUNTED
deriving Repr, DecidableEq

/-- Iteration order of `for state in EvidenceState` (IntEnum declaration
order, values 1 to 4). -/
def EvidenceState.all : List EvidenceState :=
  [.MOUNTED, .ATTACHED, .DECOMPRESSED, .CONTAINER_MOUNTED]

/-- The `self.state` dict of an Evidence object: a finite mapping from state
flag to boolean, modelled as an association list in insertion order (a Python
dict preserves insertion order). -/
abbrev StateMap := List (EvidenceState × Bool)

/-- Python dict assignment `state[flag] = value`: overwrite in place when the
key is present, append otherwise. -/
def StateMap.set (m : StateMap) (flag : EvidenceState) (value : Bool) : StateMap :=
  if m.any (fun p => p.1 == flag) then
    m.map (fun p => if p.1 == flag then (p.1, value) else p)
  else m ++ [(flag, value)]

/-- Python dict read `state[flag]`: `none` models a `KeyError`. -/
def StateMap.get (m : StateMap) (flag : EvidenceState) : Option Bool :=
  (m.find? (fun p => p.1 == flag)).map (fun p => p.2)

/-- The state dict built by `Evidence.__init__` (lines 295-297) and by
`evidence_decode` (lines 158-162): an entry for every flag, all false. -/
def initialStateMap : StateMap := EvidenceState.all.map (fun s => (s, false))

/-- The evidence variant classes of the modelled modules (`evidence/raw.py`,
`disk_partition.py`, `directory.py`, `ewf.py`, `containers.py`, `gcp.py`,
`text_file.py`, `bodyfile.py`, `memory.py` and the base class).  The class
name doubles as the `type` discriminator string. -/
inductive EvidenceType where
  | Evidence
  | RawDisk
  | DiskPartition
  | CompressedDirectory
  | Directory
  | EwfDisk
  | DockerContainer
  | ContainerdContainer
  | GoogleCloudDisk
  | GoogleCloudDiskRawEmbedded
  | TextFile
  | BodyFile
  | RawMemory
deriving Repr, DecidableEq

/-- The class name of a variant, which `Evidence.__init__` stores in
`self.type` (line 290). -/
def EvidenceType.className : EvidenceType → String
  | .Evidence => "Evidence"
  | .RawDisk => "RawDisk"
  | .DiskPartition => "DiskPartition"
  | .CompressedDirectory => "CompressedDirectory"
  | .Directory => "Directory"
  | .EwfDisk => "EwfDisk"
  | .DockerContainer => "DockerContainer"
  | .ContainerdContainer => "ContainerdContainer"
  | .GoogleCloudDisk => "GoogleCloudDisk"
  | .GoogleCloudDiskRawEmbedded => "GoogleCloudDiskRawEmbedded"
  | .TextFile => "TextFile"
  | .BodyFile => "BodyFile"
  | .RawMemory => "RawMemory"

/-- The class lookup `getattr(sys.modules[__name__], type_)` performed by
`evidence_decode` (line 141), restricted to the modelled classes; `none`
models the `AttributeError` branch. -/
def classForName (type_ : String) : Option EvidenceType :=
  if type_ == "Evidence" then some .Evidence
  else if type_ == "RawDisk" then some .RawDisk
  else if type_ == "DiskPartition" then some .DiskPartition
  else if type_ == "CompressedDirectory" then some .CompressedDirectory
  else if type_ == "Directory" then some .Directory
  else if type_ == "EwfDisk" then some .EwfDisk
  else if type_ == "DockerContainer" then some .DockerContainer
  else if type_ == "ContainerdContainer" then some .ContainerdContainer
  else if type_ == "GoogleCloudDisk" then some .GoogleCloudDisk
  else if type_ == "GoogleCloudDiskRawEmbedded" then
    some .GoogleCloudDiskRawEmbedded
  else if type_ == "TextFile" then some .TextFile
  else if type_ == "BodyFile" then some .BodyFile
  else if type_ == "RawMemory" then some .RawMemory
  else none

/-- The `POSSIBLE_STATES` class attribute of each modelled variant. -/
def EvidenceType.POSSIBLE_STATES : EvidenceType → List EvidenceState
  | .Evidence => []
  | .RawDisk => [.ATTACHED]
  | .DiskPartition => [.ATTACHED, .MOUNTED]
  | .CompressedDirectory => [.DECOMPRESSED]
  | .Directory => []
  | .EwfDisk => [.ATTACHED]
  | .DockerContainer => [.CONTAINER_MOUNTED]
  | .ContainerdContainer => [.CONTAINER_MOUNTED]
  | .GoogleCloudDisk => [.ATTACHED, .MOUNTED]
  | .GoogleCloudDiskRawEmbedded => [.ATTACHED]
  | .TextFile => []
  | .BodyFile => []
  | .RawMemory => []

/-- Whether the variant's constructor chain passes `copyable=True` to the base
`Evidence.__init__` (so that the `copyable and not local_path` check of lines
299-302 fires during construction).  `TextFile` and `BodyFile` pass it;
`CompressedDirectory` only sets `self.copyable = True` after the base
initializer has returned, so the check sees `False` there. -/
def EvidenceType.initCopyable : EvidenceType → Bool
  | .TextFile => true
  | .BodyFile => true
  | _ => false

/-- The scalar attributes of an Evidence object (its `__dict__` minus the
`parent_evidence` and `collection` references, which the tree structure of
`Evidence` holds).  Fields mirror `Evidence.__init__` (lines 264-306) plus the
variant-specific attributes of the modelled subclasses; `none` / `[]` model an
attribute that is `None` or absent. -/
structure EvidenceCore where
  etype : EvidenceType
  copyable : Bool := false
  context_dependent : Bool := false
  cloud_only : Bool := false
  description : Option String := none
  size : Option Nat := none
  mount_path : Option String := none
  credentials : List String := []
  source : Option String := none
  source_path : Option String := none
  tags : List (String × String) := []
  request_id : Option String := none
  has_child_evidence : Bool := false
  save_metadata : Bool := false
  resource_tracked : Bool := false
  resource_id : Option String := none
  local_path : Option String := none
  processed_by : List String := []
  _name : Option String := none
  saved_path : Option String := none
  saved_path_type : Option String := none
  state : StateMap := initialStateMap
  device_path : Option String := none
  path_spec : Option String := none
  uncompressed_directory : Option String := none
  compressed_directory : Option String := none
  container_id : Option String := none
  _container_fs_path : Option String := none
  _docker_root_directory : Option String := none
  _image_path : Option String := none
  namespaceName : Option String := none
  ewf_path : Option String := none
  ewf_mount_path : Option String := none
  disk_name : Option String := none
  project : Option String := none
  zone : Option String := none
  mount_partition : Nat := 1
  partition_paths : List String := []
  partition_location : Option String := none
  partition_offset : Option Int := none
  partition_size : Option Int := none
  lv_uuid : Option String := none
  embedded_path : Option String := none
deriving Repr, DecidableEq

/-- An Evidence object graph: the object's own attributes, the optional
`parent_evidence` reference and the `collection` attribute (a list of child
Evidence objects; `[]` models the attribute being absent or empty). -/
inductive Evidence where
  | mk (core : EvidenceCore) (parent_evidence : Option Evidence)
      (collection : List Evidence)

/-- Field accessor for the scalar attributes. -/
def Evidence.core : Evidence → EvidenceCore
  | .mk c _ _ => c

/-- Field accessor for `parent_evidence`. -/
def Evidence.parent_evidence : Evidence → Option Evidence
  | .mk _ p _ => p

/-- Field accessor for `collection`. -/
def Evidence.collection : Evidence → List Evidence
  | .mk _ _ l => l

/-! ## Resource-claim bookkeeping and the pre/post-processing wrappers -/

/-- Observable actions of the `preprocess` / `postprocess` wrappers.  A hook
event carries the scalar attributes of the object whose hook is invoked, at
invocation time. -/
inductive Event where
  | preHook (core : EvidenceCore)
  | postHook (core : EvidenceCore)
  | lockAcquire
  | lockRelease
  | preResource (resource_id : Option String) (task_id : String)
  | postResource (resource_id : Option String) (task_id : String)
deriving Repr, DecidableEq

/-- Modelled from the spec: the persisted resource-claim table kept by
`turbinia.processors.resource_manager` (the module is not among the sources;
spec section 4.2 and section 6): a mapping from resource id to the list of
currently-active task ids holding a claim. -/
abbrev ResourceState := List (Option String × List String)

/-- Modelled from the spec: `PreprocessResourceState(resource_id, task_id)` of
`turbinia.processors.resource_manager` — "under the lock, adds `task_id` to
the resource's claim set (creating the entry if absent).  Always succeeds
(idempotent add to a set)." -/
def PreprocessResourceState (rs : ResourceState) (resource_id : Option String)
    (task_id : String) : ResourceState :=
  if rs.any (fun p => p.1 == resource_id) then
    rs.map (fun p =>
      if p.1 == resource_id then
        (p.1, if task_id ∈ p.2 then p.2 else p.2 ++ [task_id])
      else p)
  else rs ++ [(resource_id, [task_id])]

/-- Modelled from the spec: `PostProcessResourceState(resource_id, task_id)` of
`turbinia.processors.resource_manager` — "under the lock, removes `task_id`
from the claim set.  Returns whether the claim set is now empty
(detachable)"; a detachable resource has its entry removed from the table. -/
def PostProcessResourceState (rs : ResourceState) (resource_id : Option String)
    (task_id : String) : ResourceState × Bool :=
  let rs' := rs.map (fun p =>
    if p.1 == resource_id then (p.1, p.2.filter (fun t => t != task_id)) else p)
  let remaining := ((rs'.find? (fun p => p.1 == resource_id)).map (fun p => p.2)).getD []
  if remaining.isEmpty then
    (rs'.filter (fun p => !(p.1 == resource_id)), true)
  else (rs', false)

/-- The dynamically dispatched `self._preprocess(tmp_dir, required_states)`
call.  A variant hook mutates the evidence object's own attributes and may
raise a `TurbiniaException`; both effects are returned.  Every `_preprocess`
under the modelled sources mutates only the object it belongs to, with one
exception: `GoogleCloudDiskRawEmbedded._preprocess` (gcp.py lines 115-139)
also mutates its parent evidence, and is therefore modelled separately as
`GoogleCloudDiskRawEmbedded_preprocess`, taking and returning the parent's
attributes alongside its own. -/
abbrev PreHook :=
  EvidenceCore → Option String → List EvidenceState → EvidenceCore × Option TurbiniaException

/-- The dynamically dispatched `self._postprocess()` call: the variant hook
mutates the evidence object's own attributes. -/
abbrev PostHook := EvidenceCore → EvidenceCore

/-- The outcome of a call of `Evidence.preprocess`: the event trace, the
updated resource-claim table, the evidence object after the call (Python
mutates it in place) and the exception propagated to the caller, if any. -/
structure PreprocessOutcome where
  trace : List Event
  rstate : ResourceState
  evd : Evidence
  exc : Option TurbiniaException

/-- The body of the `try` block of `Evidence.preprocess` (interface.py lines
469-477) plus the trailing debug log: when the evidence is resource tracked
the claim is recorded under the file lock (lines 471-474), then the variant
hook runs (line 475); a `TurbiniaException` raised by the hook is caught and
logged (lines 476-477), so this part always returns normally. -/
def preprocessOwn (hook : PreHook) (task_id : String) (tmp_dir : Option String)
    (required_states : List EvidenceState) (core : EvidenceCore)
    (rs : ResourceState) : List Event × ResourceState × EvidenceCore :=
  let resEvents :=
    if core.resource_tracked then
      [Event.lockAcquire, Event.preResource core.resource_id task_id,
        Event.lockRelease]
    else []
  let rs2 :=
    if core.resource_tracked then
      PreprocessResourceState rs core.resource_id task_id
    else rs
  (resEvents ++ [Event.preHook core], rs2, (hook core tmp_dir required_states).1)

/-- The message of the validation error raised on line 466-467. -/
def needsParentMessage (core : EvidenceCore) : TurbiniaException :=
  let t := core.etype.className
  ⟨s!"Evidence of type {t} needs parent_evidence to be set"⟩

/-- `Evidence.preprocess(task_id, tmp_dir, required_states)` (interface.py
lines 412-481).  Line 460 first resets `local_path` to `source_path`; when the
evidence is context dependent a missing parent raises a `TurbiniaException`
(lines 464-467) and otherwise the parent chain is preprocessed first (line
468, the parent's exceptions propagating); finally the evidence's own
resource bookkeeping and hook run inside the `try` block (`preprocessOwn`).
The default of `required_states` is the empty list (lines 461-462), so the
argument is a plain list here. -/
def Evidence.preprocess (hook : PreHook) (task_id : String)
    (tmp_dir : Option String) (required_states : List EvidenceState) :
    Evidence → ResourceState → PreprocessOutcome
  | .mk core parent coll, rs =>
    let core := { core with local_path := core.source_path }
    if core.context_dependent then
      match parent with
      | none =>
        { trace := [], rstate := rs, evd := .mk core none coll,
          exc := some (needsParentMessage core) }
      | some p =>
        let pr := p.preprocess hook task_id tmp_dir required_states rs
        match pr.exc with
        | some ex =>
          { trace := pr.trace, rstate := pr.rstate,
            evd := .mk core (some pr.evd) coll, exc := some ex }
        | none =>
          let own := preprocessOwn hook task_id tmp_dir required_states core pr.rstate
          { trace := pr.trace ++ own.1, rstate := own.2.1,
            evd := .mk own.2.2 (some pr.evd) coll, exc := none }
    else
      let own := preprocessOwn hook task_id tmp_dir required_states core rs
      { trace := own.1, rstate := own.2.1, evd := .mk own.2.2 parent coll,
        exc := none }

/-- The outcome of a call of `Evidence.postprocess`. -/
structure PostprocessOutcome where
  trace : List Event
  rstate : ResourceState
  evd : Evidence

/-- The non-recursive part of `Evidence.postprocess` (interface.py lines
496-513): for resource-tracked evidence the claim of `task_id` is released
under the file lock and, inside the same lock scope, the variant hook runs
exactly when the release reported the claim set empty (the `is_detachable =
False` assignment on line 510 prevents a second run after the lock); evidence
that is not resource tracked runs its hook unconditionally. -/
def postprocessOwn (hook : PostHook) (task_id : String) (core : EvidenceCore)
    (rs : ResourceState) : List Event × ResourceState × EvidenceCore :=
  if core.resource_tracked then
    let rp := PostProcessResourceState rs core.resource_id task_id
    if rp.2 then
      ([Event.lockAcquire, Event.postResource core.resource_id task_id,
        Event.postHook core, Event.lockRelease], rp.1, hook core)
    else
      ([Event.lockAcquire, Event.postResource core.resource_id task_id,
        Event.lockRelease], rp.1, core)
  else ([Event.postHook core], rs, hook core)

/-- `Evidence.postprocess(task_id)` (interface.py lines 483-515).  For
resource-tracked evidence the claim of `task_id` is released under the file
lock and, inside the same lock scope, the variant hook runs exactly when the
release reported the claim set empty (lines 496-510; the `is_detachable =
False` assignment on line 510 prevents a second hook run after the lock).
Evidence that is not resource tracked runs its hook unconditionally (lines
496, 512-513).  Afterwards the wrapper recurses to the parent (lines
514-515). -/
def Evidence.postprocess (hook : PostHook) (task_id : String) :
    Evidence → ResourceState → PostprocessOutcome
  | .mk core parent coll, rs =>
    let own := postprocessOwn hook task_id core rs
    match parent with
    | none => { trace := own.1, rstate := own.2.1, evd := .mk own.2.2 none coll }
    | some p =>
      let pr := p.postprocess hook task_id own.2.1
      { trace := own.1 ++ pr.trace, rstate := pr.rstate,
        evd := .mk own.2.2 (some pr.evd) coll }

/-! ## Serialization and decoding -/

mutual

/-- The dict produced by `Evidence.serialize` (interface.py lines 352-360):
the flattened `__dict__` attributes (`attrs`), the `type` discriminator string
(`typeName`, part of the `__dict__` in the source), the recursively
serialized `parent_evidence` and the raw `collection` value.  `serialize`
recurses only into `parent_evidence`; a `collection` attribute is copied as
the raw list of Evidence objects, so its elements appear here as
`SerializedItem.obj`. -/
inductive SerializedEvidence where
  | mk (typeName : String) (attrs : EvidenceCore)
      (parent_evidence : Option SerializedEvidence)
      (collection : List SerializedItem)

/-- A value handed to `evidence_decode`: either a dict (the shape produced by
`serialize`) or a non-dict Python object that was left in place. -/
inductive SerializedItem where
  | dict (d : SerializedEvidence)
  | obj (e : Evidence)

end

/-- `Evidence.serialize` (interface.py lines 352-360): `path_spec` is cleared
before the `__dict__` copy (lines 354-356; it holds a dfVFS object that
cannot be serialized), the parent is serialized recursively when present
(lines 358-359), and every other attribute — a `collection` of Evidence
objects included — is copied as is. -/
def Evidence.serialize : Evidence → SerializedEvidence
  | .mk core none coll =>
    .mk core.etype.className { core with path_spec := none } none
      (coll.map SerializedItem.obj)
  | .mk core (some p) coll =>
    .mk core.etype.className { core with path_spec := none } (some p.serialize)
      (coll.map SerializedItem.obj)

/-- The messages of the `TurbiniaException`s raised by `evidence_decode`. -/
def notADictMessage : TurbiniaException :=
  ⟨"Evidence_dict is not a dictionary"⟩

/-- The error raised when the `type` key is absent or falsy (lines 136-138). -/
def noTypeMessage : TurbiniaException :=
  ⟨"No Type attribute for evidence object"⟩

/-- The error raised when the discriminator names no evidence class (lines
163-166). -/
def noSuchTypeMessage (type_ : String) : TurbiniaException :=
  ⟨s!"No Evidence object of type {type_} in evidence module"⟩

/-- The error raised by `Evidence.__init__` (lines 299-302) when a copyable
evidence is constructed without a source path. -/
def copyableNeedsPathMessage (type_ : String) : TurbiniaException :=
  ⟨s!"Unable to initialize object, {type_} is a copyable evidence and needs a source_path"⟩

mutual

/-- `EvidenceManager.evidence_decode` (interface.py lines 113-168) for the
default `strict=False` used by its recursive calls: a non-dict input is
rejected immediately (lines 130-133); a dict is decoded by
`evidence_decode_dict`. -/
def EvidenceManager.evidence_decode : SerializedItem → Except TurbiniaException Evidence
  | .obj _ => .error notADictMessage
  | .dict d => evidence_decode_dict d

/-- The dict branch of `evidence_decode`: pop and validate the `type` key
(lines 135-138), look the class up (line 141), rebuild the object through
`from_dict` — whose constructor call re-runs the copyable/source-path check
of `Evidence.__init__` and whose closing `__dict__.update` overwrites every
attribute with the serialized value (lines 330-350) — then recursively decode
a truthy `parent_evidence` (lines 151-153) and a truthy `collection` (lines
154-157), and finally reinitialize `state` to all-false (lines 158-162). -/
def evidence_decode_dict : SerializedEvidence → Except TurbiniaException Evidence
  | .mk typeName attrs sparent scoll =>
    if typeName == "" then .error noTypeMessage
    else
      match classForName typeName with
      | none => .error (noSuchTypeMessage typeName)
      | some ty =>
        if ty.initCopyable && !(strTruthy attrs.source_path) then
          .error (copyableNeedsPathMessage ty.className)
        else
          match sparent with
          | none =>
            match evidence_decode_collection scoll with
            | .error ex => .error ex
            | .ok coll =>
              .ok (.mk { attrs with etype := ty, state := initialStateMap } none coll)
          | some sp =>
            match evidence_decode_dict sp with
            | .error ex => .error ex
            | .ok parent =>
              match evidence_decode_collection scoll with
              | .error ex => .error ex
              | .ok coll =>
                .ok (.mk { attrs with etype := ty, state := initialStateMap }
                  (some parent) coll)

/-- The list comprehension of line 155-157: each element of a truthy
`collection` goes through `evidence_decode` again (an empty list is falsy and
is skipped, leaving the `[]` set by `__dict__.update`). -/
def evidence_decode_collection : List SerializedItem → Except TurbiniaException (List Evidence)
  | [] => .ok []
  | i :: rest =>
    match EvidenceManager.evidence_decode i with
    | .error ex => .error ex
    | .ok e =>
      match evidence_decode_collection rest with
      | .error ex => .error ex
      | .ok es => .ok (e :: es)

end

/-- The transformation that decoding a serialized Evidence applies beyond
reconstruction: along the parent chain, `state` is reinitialized to all-false
and `path_spec` is cleared. -/
def Evidence.resetTransient : Evidence → Evidence
  | .mk core none coll =>
    .mk { core with state := initialStateMap, path_spec := none } none coll
  | .mk core (some p) coll =>
    .mk { core with state := initialStateMap, path_spec := none }
      (some p.resetTransient) coll

/-- The evidence values whose serialized form decodes successfully: along the
parent chain, no node has a populated `collection` (serialize leaves the raw
objects in place and decode rejects them) and every node of a variant that
passes `copyable=True` to the base constructor has a truthy `source_path`
(otherwise the reconstructing constructor raises). -/
def Evidence.decodable : Evidence → Bool
  | .mk core none coll =>
    (!core.etype.initCopyable || strTruthy core.source_path) && coll.isEmpty
  | .mk core (some p) coll =>
    (!core.etype.initCopyable || strTruthy core.source_path) && coll.isEmpty
      && p.decodable

/-! ## Variant hooks

Each hook is translated from its variant module; calls into the external
processors (`turbinia.processors.mount_local`, `docker`, `containerd`,
`google_cloud`, `partitions`, `archive` — opaque tools at the engine's
boundary) are passed in as functions, and an attribute of the parent evidence
that a hook reads is passed in as a value. -/

/-- Reading `self.state[flag]` in a hook guard: true when the entry exists
and holds `True`. -/
def stateTrue (m : StateMap) (flag : EvidenceState) : Bool :=
  m.get flag == some true

/-- `RawDisk._preprocess` (evidence/raw.py lines 37-43). -/
def RawDisk_preprocess (GetDiskSize : Option String → Option Nat)
    (PreprocessLosetup : Option String → String)
    (required_states : List EvidenceState) (e : EvidenceCore) : EvidenceCore :=
  let e := if e.size = none then { e with size := GetDiskSize e.source_path } else e
  if required_states.contains EvidenceState.ATTACHED || e.has_child_evidence then
    let devicePath := PreprocessLosetup e.source_path
    { e with device_path := some devicePath,
             state := e.state.set .ATTACHED true,
             local_path := some devicePath }
  else e

/-- `RawDisk._postprocess` (evidence/raw.py lines 45-48); the losetup
deletion is external and leaves the object's attributes unchanged. -/
def RawDisk_postprocess (e : EvidenceCore) : EvidenceCore :=
  if stateTrue e.state .ATTACHED then
    { e with state := e.state.set .ATTACHED false }
  else e

/-- `EwfDisk._preprocess` (evidence/ewf.py lines 43-49). -/
def EwfDisk_preprocess (PreprocessMountEwfDisk : Option String → String)
    (GetEwfDiskPath : String → String)
    (required_states : List EvidenceState) (e : EvidenceCore) : EvidenceCore :=
  if required_states.contains EvidenceState.ATTACHED || e.has_child_evidence then
    let mountPath := PreprocessMountEwfDisk e.source_path
    let ewfPath := GetEwfDiskPath mountPath
    { e with ewf_mount_path := some mountPath, ewf_path := some ewfPath,
             device_path := some ewfPath, local_path := some ewfPath,
             state := e.state.set .ATTACHED true }
  else e

/-- `EwfDisk._postprocess` (evidence/ewf.py lines 51-54). -/
def EwfDisk_postprocess (e : EvidenceCore) : EvidenceCore :=
  if stateTrue e.state .ATTACHED then
    { e with state := e.state.set .ATTACHED false }
  else e

/-- `CompressedDirectory._preprocess` (evidence/directory.py lines 53-59). -/
def CompressedDirectory_preprocess
    (UncompressTarFile : Option String → Option String → String)
    (tmp_dir : Option String) (required_states : List EvidenceState)
    (e : EvidenceCore) : EvidenceCore :=
  if required_states.contains EvidenceState.DECOMPRESSED then
    let uncompressed := UncompressTarFile e.local_path tmp_dir
    { e with uncompressed_directory := some uncompressed,
             local_path := some uncompressed,
             state := e.state.set .DECOMPRESSED true }
  else e

/-- `DockerContainer._preprocess` (evidence/containers.py lines 56-65);
`parent_mount_path` is the `self.parent_evidence.mount_path` read on line
59. -/
def DockerContainer_preprocess (GetDockerPath : Option String → String)
    (PreprocessMountDockerFS : String → Option String → String)
    (parent_mount_path : Option String)
    (required_states : List EvidenceState) (e : EvidenceCore) : EvidenceCore :=
  if required_states.contains EvidenceState.CONTAINER_MOUNTED then
    let rootDirectory := GetDockerPath parent_mount_path
    let fsPath := PreprocessMountDockerFS rootDirectory e.container_id
    { e with _docker_root_directory := some rootDirectory,
             _container_fs_path := some fsPath,
             mount_path := some fsPath, local_path := some fsPath,
             state := e.state.set .CONTAINER_MOUNTED true }
  else e

/-- `DockerContainer._postprocess` (evidence/containers.py lines 67-71). -/
def DockerContainer_postprocess (e : EvidenceCore) : EvidenceCore :=
  if stateTrue e.state .CONTAINER_MOUNTED then
    { e with state := e.state.set .CONTAINER_MOUNTED false }
  else e

/-- `ContainerdContainer._preprocess` (evidence/containers.py lines 106-116);
`parent_mount_path` is the `self.parent_evidence.mount_path` read on line
108. -/
def ContainerdContainer_preprocess
    (PreprocessMountContainerdFS : Option String → Option String → Option String → String)
    (parent_mount_path : Option String)
    (required_states : List EvidenceState) (e : EvidenceCore) : EvidenceCore :=
  if required_states.contains EvidenceState.CONTAINER_MOUNTED then
    let fsPath := PreprocessMountContainerdFS parent_mount_path e.namespaceName
      e.container_id
    { e with _image_path := parent_mount_path,
             _container_fs_path := some fsPath,
             mount_path := some fsPath, local_path := some fsPath,
             state := e.state.set .CONTAINER_MOUNTED true }
  else e

/-- `ContainerdContainer._postprocess` (evidence/containers.py lines
118-122). -/
def ContainerdContainer_postprocess (e : EvidenceCore) : EvidenceCore :=
  if stateTrue e.state .CONTAINER_MOUNTED then
    { e with state := e.state.set .CONTAINER_MOUNTED false }
  else e

/-- `GoogleCloudDisk._preprocess` (evidence/gcp.py lines 59-73); the body
runs inside its own file-lock scope, which wraps only this hook and is not
part of the wrapper's modelled trace. -/
def GoogleCloudDisk_preprocess
    (PreprocessAttachDisk : Option String → String × List String)
    (required_states : List EvidenceState) (e : EvidenceCore) : EvidenceCore :=
  if required_states.contains EvidenceState.ATTACHED then
    let (devicePath, partitionPaths) := PreprocessAttachDisk e.disk_name
    { e with device_path := some devicePath,
             partition_paths := partitionPaths,
             local_path := some devicePath,
             state := e.state.set .ATTACHED true }
  else e

/-- `GoogleCloudDisk._postprocess` (evidence/gcp.py lines 75-78). -/
def GoogleCloudDisk_postprocess (e : EvidenceCore) : EvidenceCore :=
  if stateTrue e.state .ATTACHED then
    { e with state := e.state.set .ATTACHED false }
  else e

/-- `DiskPartition._preprocess` (evidence/disk_partition.py lines 78-131).
`path_specs` is the result of the external `partitions.Enumerate(parent,
location)` call; `parent_device_path` and `parent_credentials` are the
attributes of `self.parent_evidence` read by the attachment branch.  More
than one returned path spec, or none, raises a `TurbiniaException`; the
decrypt/losetup externals may yield a falsy device path, in which case the
`if self.device_path` guards skip the state updates. -/
def DiskPartition_preprocess
    (path_specs : List String)
    (GetPartitionEncryptionType : Option String → Option String)
    (type_indicator : Option String → Option String)
    (PreprocessBitLocker : Option String → Option Int → List String → Option String)
    (PreprocessLosetup : Option String → Option Int → Option Int → Option String → Option String)
    (PreprocessMountPartition : Option String → Option String → Option String)
    (parent_device_path : Option String) (parent_credentials : List String)
    (required_states : List EvidenceState) (e : EvidenceCore) :
    Except TurbiniaException EvidenceCore :=
  if path_specs.length > 1 then
    .error ⟨"Found more than one path_spec"⟩
  else
    match path_specs with
    | [pathSpec] =>
      let e := { e with path_spec := some pathSpec }
      let e :=
        if required_states.contains EvidenceState.ATTACHED || e.has_child_evidence then
          let encryptionType := GetPartitionEncryptionType e.path_spec
          let devicePath :=
            if encryptionType == some "BDE" then
              PreprocessBitLocker parent_device_path e.partition_offset
                parent_credentials
            else
              PreprocessLosetup parent_device_path e.partition_offset
                e.partition_size e.lv_uuid
          let e := { e with device_path := devicePath }
          if strTruthy devicePath then
            { e with state := e.state.set .ATTACHED true,
                     local_path := devicePath }
          else e
        else e
      if required_states.contains EvidenceState.MOUNTED || e.has_child_evidence then
        let mountPath := PreprocessMountPartition e.device_path
          (type_indicator e.path_spec)
        let e := { e with mount_path := mountPath }
        if strTruthy mountPath then
          .ok { e with local_path := mountPath,
                       state := e.state.set .MOUNTED true }
        else .ok e
      else .ok e
    | _ => .error ⟨"Could not find path_spec for location"⟩

/-- `DiskPartition._postprocess` (evidence/disk_partition.py lines 133-149);
the unmount/detach externals leave the object's attributes unchanged. -/
def DiskPartition_postprocess (e : EvidenceCore) : EvidenceCore :=
  let e :=
    if stateTrue e.state .MOUNTED then
      { e with state := e.state.set .MOUNTED false }
    else e
  if stateTrue e.state .ATTACHED then
    { e with state := e.state.set .ATTACHED false }
  else e

/-- `GoogleCloudDiskRawEmbedded._preprocess` (evidence/gcp.py lines 115-139).
Unlike every other hook under the sources, it mutates its parent evidence
too — the module comments (lines 59-63) call this "breaking the evidence
layer isolation" — so the model takes and returns the parent's attributes
alongside the evidence's own, in the order the source writes them: mount the
parent disk (whole-disk mount when it has `partition_paths`, else a single
partition mount), point the parent's `local_path` at the mount, set the
parent's MOUNTED flag, and only then, when ATTACHED is required or child
evidence exists, loop-attach the embedded raw image — raising when the
joined path does not exist on the mounted filesystem; as in `PreHook`, the
mutations made before a raise are kept and returned with the exception.
Externals: `PreprocessMountPartition`, `PreprocessMountDisk`,
`PreprocessLosetup` (mount_local), the `path_spec.type_indicator` read, the
`os.path.join` and the `os.path.exists` check. -/
def GoogleCloudDiskRawEmbedded_preprocess
    (PreprocessMountPartition : Option String → Option String → String)
    (type_indicator : Option String → Option String)
    (PreprocessMountDisk : List String → Nat → String)
    (PreprocessLosetup : String → String)
    (path_join : Option String → Option String → String)
    (path_isthere : String → Bool)
    (required_states : List EvidenceState)
    (e parent : EvidenceCore) :
    (EvidenceCore × EvidenceCore) × Option TurbiniaException :=
  let parent :=
    if parent.partition_paths.isEmpty then
      { parent with mount_path := some (PreprocessMountPartition
          parent.device_path (type_indicator e.path_spec)) }
    else
      { parent with mount_path := some (PreprocessMountDisk
          parent.partition_paths parent.mount_partition) }
  let parent := { parent with local_path := parent.mount_path }
  let parent := { parent with state := parent.state.set .MOUNTED true }
  if required_states.contains EvidenceState.ATTACHED ||
      e.has_child_evidence then
    let rawdisk_path := path_join parent.mount_path e.embedded_path
    if !(path_isthere rawdisk_path) then
      ((e, parent), some
        ⟨s!"Unable to find raw disk image {rawdisk_path} in GoogleCloudDisk"⟩)
    else
      let devicePath := PreprocessLosetup rawdisk_path
      (({ e with device_path := some devicePath,
                 state := e.state.set .ATTACHED true,
                 local_path := some devicePath }, parent), none)
  else ((e, parent), none)

/-- `GoogleCloudDiskRawEmbedded._postprocess` (evidence/gcp.py lines
141-148): detach the embedded image when attached, then unmount the parent
disk when mounted; the parent evidence is mutated alongside the evidence's
own attributes. -/
def GoogleCloudDiskRawEmbedded_postprocess (e parent : EvidenceCore) :
    EvidenceCore × EvidenceCore :=
  let e :=
    if stateTrue e.state .ATTACHED then
      { e with state := e.state.set .ATTACHED false }
    else e
  let parent :=
    if stateTrue parent.state .MOUNTED then
      { parent with state := parent.state.set .MOUNTED false }
    else parent
  (e, parent)

/-! ## Task statistics (`turbinia/client.py`) -/

/-- One entry of `TurbiniaStats.tasks`: a task-result dict, of which the
statistics code reads the `run_time` value (a timedelta, modelled in
microseconds). -/
structure StatsTask where
  run_time : Nat
deriving Repr, DecidableEq

/-- `td - timedelta(microseconds=td.microseconds)` (client.py lines 267-270):
drop the sub-second part of a non-negative timedelta. -/
def stripMicroseconds (t : Nat) : Nat := t - t % 1000000

/-- `TurbiniaStats` (client.py lines 219-289): the aggregate counters and the
task list they are computed from. -/
structure TurbiniaStats where
  description : Option String := none
  min : Option Nat := none
  mean : Option Nat := none
  max : Option Nat := none
  tasks : List StatsTask := []
deriving Repr, DecidableEq

/-- The `count` property (client.py lines 239-246). -/
def TurbiniaStats.count (s : TurbiniaStats) : Nat := s.tasks.length

/-- The comparison used by `sorted(self.tasks, key=itemgetter('run_time'))`:
Python's sort is a stable sort by the key, and any stable sort by the same
key produces the same list, so an insertion sort models it. -/
def runTimeLE (a b : StatsTask) : Prop := a.run_time ≤ b.run_time

instance : DecidableRel runTimeLE := fun a b => Nat.decLe a.run_time b.run_time

/-- `TurbiniaStats.calculate_stats` (client.py lines 256-270): an empty task
list returns with the counters untouched; otherwise the tasks are sorted by
`run_time` and `min` takes index 0, `max` index `len - 1` and `mean` index
`len // 2` of the sorted list, each with its microseconds stripped. -/
def TurbiniaStats.calculate_stats (s : TurbiniaStats) : TurbiniaStats :=
  if s.tasks.isEmpty then s
  else
    let sorted_tasks := s.tasks.insertionSort runTimeLE
    let n := sorted_tasks.length
    { s with
      min := some (stripMicroseconds (sorted_tasks.getD 0 ⟨0⟩).run_time),
      max := some (stripMicroseconds (sorted_tasks.getD (n - 1) ⟨0⟩).run_time),
      mean := some (stripMicroseconds (sorted_tasks.getD (n / 2) ⟨0⟩).run_time) }

/-! ## The manager registry (`turbinia/manager_interface.py`) -/

/-- Python's `str.lower()` on the ASCII class names used as registry keys. -/
def pyLower (s : String) : String := ⟨s.data.map Char.toLower⟩

/-- A registrable class object: `Register` instantiates it and reads `.type`,
which holds the class name (`Evidence.__init__` line 290 stores
`self.__class__.__name__` there). -/
structure ClassObject where
  typeName : String
deriving Repr, DecidableEq

/-- The `_registered_classes` dict: class name (lower-cased) to class object,
in insertion order. -/
abbrev RegisteredClasses := List (String × ClassObject)

/-- `ManagerInterface.Register` (manager_interface.py lines 29-34): the key is
the instantiated object's lower-cased type name; a key already present raises
a `KeyError` before the assignment line runs, so nothing is overwritten;
otherwise the class is added. -/
def ManagerInterface.Register (reg : RegisteredClasses)
    (class_object : ClassObject) : Except KeyError RegisteredClasses :=
  let class_name := pyLower class_object.typeName
  if (reg.lookup class_name).isSome then
    .error ⟨s!"Class already registered for name: {class_name}."⟩
  else
    .ok (reg ++ [(class_name, class_object)])

/-- `ManagerInterface.GetInstance` (manager_interface.py lines 54-60). -/
def ManagerInterface.GetInstance (reg : RegisteredClasses)
    (class_name : String) : Except KeyError ClassObject :=
  let class_name := pyLower class_name
  match reg.lookup class_name with
  | none => .error ⟨s!"Class not registered for name: {class_name}."⟩
  | some classObject => .ok classObject

/-- The accumulation loop inside `GetInstances` (manager_interface.py lines
64-67): for every registered pair, when `class_names` is truthy (a non-empty
list) and contains the name, the class is instantiated and appended to the
local `class_instances` list. -/
def GetInstances_class_instances (reg : RegisteredClasses)
    (class_names : List String) : List ClassObject :=
  (reg.filter (fun p => !class_names.isEmpty && class_names.contains p.1)).map
    (fun p => p.2)

/-- `ManagerInterface.GetInstances` (manager_interface.py lines 62-67): the
accumulated list is bound to a local variable and the body ends without a
return statement, so the call evaluates to `None`. -/
def ManagerInterface.GetInstances (reg : RegisteredClasses)
    (class_names : List String) : Option (List ClassObject) :=
  let _class_instances := GetInstances_class_instances reg class_names
  none

/-- The manager classes present in the sources: `ManagerInterface`
(manager_interface.py line 18) and its subclass `EvidenceManager`
(evidence/interface.py line 34). -/
inductive ManagerClass where
  | ManagerInterface
  | EvidenceManager
deriving Repr, DecidableEq

/-- The Python method resolution order of each manager class. -/
def ManagerClass.mro : ManagerClass → List ManagerClass
  | .ManagerInterface => [.ManagerInterface]
  | .EvidenceManager => [.EvidenceManager, .ManagerInterface]

/-- Which class bodies bind `_registered_classes` in their own class dict:
only the base class does (manager_interface.py line 27); the body of
`EvidenceManager` declares methods only. -/
def ManagerClass.definesRegistry : ManagerClass → Bool
  | .ManagerInterface => true
  | .EvidenceManager => false

/-- Python attribute resolution for `cls._registered_classes`: the first
class along the MRO whose dict binds the attribute owns the dict object that
every reader and writer then shares. -/
def registryOwner (c : ManagerClass) : Option ManagerClass :=
  c.mro.find? (fun o => o.definesRegistry)

/-- The registry dicts of the running process: one per defining class. -/
abbrev RegistryStore := ManagerClass → RegisteredClasses

/-- Reading `cls._registered_classes` through class `c`. -/
def readRegistry (store : RegistryStore) (c : ManagerClass) : RegisteredClasses :=
  match registryOwner c with
  | some owner => store owner
  | none => []

/-- `c.Register(obj)`: the attribute read resolves to the owning class's
dict, and `cls._registered_classes[class_name] = class_object` mutates that
dict in place. -/
def RegisterVia (store : RegistryStore) (c : ManagerClass)
    (class_object : ClassObject) : Except KeyError RegistryStore :=
  match registryOwner c with
  | none => .error ⟨"AttributeError"⟩
  | some owner =>
    match ManagerInterface.Register (store owner) class_object with
    | .error e => .error e
    | .ok reg2 => .ok (fun c2 => if c2 = owner then reg2 else store c2)

/-! ## Theorems: the manager registry (claims C7, C9, C10) -/

/-- Appending an entry with a fresh key leaves lookups of other keys
unchanged. -/
theorem lookup_append_other (l : RegisteredClasses) (k n : String)
    (v : ClassObject) (h : n ≠ k) : (l ++ [(k, v)]).lookup n = l.lookup n := by
  induction l with
  | nil =>
    have hb : (n == k) = false := by simpa using h
    simp [List.lookup_cons, hb]
  | cons hd tl ih =>
    obtain ⟨k2, v2⟩ := hd
    cases hb : (n == k2) <;> simp [List.lookup_cons, hb, ih]

/-- Appending an entry whose key was absent makes it the lookup result. -/
theorem lookup_append_self (l : RegisteredClasses) (k : String)
    (v : ClassObject) (h : l.lookup k = none) :
    (l ++ [(k, v)]).lookup k = some v := by
  induction l with
  | nil => simp
  | cons hd tl ih =>
    obtain ⟨k2, v2⟩ := hd
    rw [List.lookup_cons] at h
    cases hb : (k == k2) with
    | true => rw [hb] at h; simp at h
    | false =>
      rw [hb] at h
      simp only [List.cons_append, List.lookup_cons, hb]
      exact ih h

/-- C7: registering a class under a name that is already registered raises an
error before the assignment line runs, so nothing is overwritten; registering
a fresh name appends exactly that entry, every other lookup unchanged. -/
theorem C7_register_fail_fast (reg : RegisteredClasses)
    (class_object : ClassObject) :
    ((reg.lookup (pyLower class_object.typeName)).isSome = true →
      ∃ err, ManagerInterface.Register reg class_object = .error err) ∧
    (reg.lookup (pyLower class_object.typeName) = none →
      ManagerInterface.Register reg class_object =
        .ok (reg ++ [(pyLower class_object.typeName, class_object)]) ∧
      (∀ n, n ≠ pyLower class_object.typeName →
        (reg ++ [(pyLower class_object.typeName, class_object)]).lookup n =
          reg.lookup n) ∧
      (reg ++ [(pyLower class_object.typeName, class_object)]).lookup
          (pyLower class_object.typeName) = some class_object) := by
  constructor
  · intro h
    refine ⟨⟨"Class already registered for name: " ++
      pyLower class_object.typeName ++ "."⟩, ?_⟩
    simp only [ManagerInterface.Register]
    rw [if_pos h]
    rfl
  · intro h
    refine ⟨by simp [ManagerInterface.Register, h], ?_, lookup_append_self _ _ _ h⟩
    intro n hn
    exact lookup_append_other _ _ _ _ hn

/-- C7 witness: a fresh registration on the empty registry succeeds with the
single appended entry. -/
theorem C7_register_fail_fast_witness :
    ManagerInterface.Register [] ⟨"RawDisk"⟩ =
      .ok ([] ++ [(pyLower "RawDisk", ⟨"RawDisk"⟩)]) :=
  ((C7_register_fail_fast [] ⟨"RawDisk"⟩).2 rfl).1

/-- C9: `GetInstances` accumulates the matching registered instances in a
local list but has no return statement, so for every registry and every input
list of class names the call returns `None`; on a concrete registry the local
list is non-empty while the result is still `None`. -/
theorem C9_get_instances_returns_none :
    (∀ (reg : RegisteredClasses) (class_names : List String),
        ManagerInterface.GetInstances reg class_names = none) ∧
    GetInstances_class_instances [("rawdisk", ⟨"RawDisk"⟩)] ["rawdisk"] =
      [⟨"RawDisk"⟩] ∧
    ManagerInterface.GetInstances [("rawdisk", ⟨"RawDisk"⟩)] ["rawdisk"] = none :=
  ⟨fun _ _ => rfl, by decide, rfl⟩

/-- Unfolding `RegisterVia` through `EvidenceManager`: its attribute lookup
resolves to the base class. -/
theorem RegisterVia_EvidenceManager (store : RegistryStore) (cls : ClassObject) :
    RegisterVia store .EvidenceManager cls =
      (match ManagerInterface.Register (store .ManagerInterface) cls with
        | .error e => .error e
        | .ok reg2 =>
          .ok (fun c2 => if c2 = ManagerClass.ManagerInterface then reg2
            else store c2)) := rfl

/-- Unfolding `RegisterVia` through `ManagerInterface` itself. -/
theorem RegisterVia_ManagerInterface (store : RegistryStore) (cls : ClassObject) :
    RegisterVia store .ManagerInterface cls =
      (match ManagerInterface.Register (store .ManagerInterface) cls with
        | .error e => .error e
        | .ok reg2 =>
          .ok (fun c2 => if c2 = ManagerClass.ManagerInterface then reg2
            else store c2)) := rfl

/-- C10: every modelled manager class resolves `_registered_classes` to the
single dict owned by `ManagerInterface`, so reads agree through every class; a
class registered through `EvidenceManager` is visible through
`ManagerInterface`, and a later registration of the same name through any
manager collides. -/
theorem C10_shared_registry :
    (∀ (store : RegistryStore) (c c2 : ManagerClass),
        readRegistry store c = readRegistry store c2) ∧
    registryOwner .EvidenceManager = some .ManagerInterface ∧
    (∀ (store store2 : RegistryStore) (cls : ClassObject),
      RegisterVia store .EvidenceManager cls = .ok store2 →
      (readRegistry store2 .ManagerInterface).lookup (pyLower cls.typeName) =
        some cls ∧
      (∀ cls2 : ClassObject, pyLower cls2.typeName = pyLower cls.typeName →
        ∃ err, RegisterVia store2 .ManagerInterface cls2 = .error err)) := by
  refine ⟨?_, rfl, ?_⟩
  · intro store c c2
    cases c <;> cases c2 <;> rfl
  · intro store store2 cls h
    rw [RegisterVia_EvidenceManager] at h
    cases hr : ManagerInterface.Register (store .ManagerInterface) cls with
    | error e => rw [hr] at h; exact absurd h (by simp)
    | ok reg2 =>
      rw [hr] at h
      have hstore2 : store2 =
          fun c2 => if c2 = ManagerClass.ManagerInterface then reg2
            else store c2 := by
        injection h with h2
        exact h2.symm
      subst hstore2
      simp only [ManagerInterface.Register] at hr
      split at hr
      · exact absurd hr (by simp)
      · rename_i hnotSome
        have h0 : (store ManagerClass.ManagerInterface).lookup
            (pyLower cls.typeName) = none := by
          cases hcase : (store ManagerClass.ManagerInterface).lookup
              (pyLower cls.typeName) with
          | none => rfl
          | some v =>
            rw [hcase] at hnotSome
            exact absurd rfl hnotSome
        injection hr with hreg2
        subst hreg2
        have hownread : readRegistry
            (fun c2 => if c2 = ManagerClass.ManagerInterface
              then store ManagerClass.ManagerInterface ++
                [(pyLower cls.typeName, cls)]
              else store c2) .ManagerInterface =
            store ManagerClass.ManagerInterface ++
              [(pyLower cls.typeName, cls)] := rfl
        have hlk : (store ManagerClass.ManagerInterface ++
            [(pyLower cls.typeName, cls)]).lookup (pyLower cls.typeName) =
            some cls := lookup_append_self _ _ _ h0
        rw [hownread]
        refine ⟨hlk, ?_⟩
        intro cls2 hkey
        have hlk2 : ((store ManagerClass.ManagerInterface ++
            [(pyLower cls.typeName, cls)]).lookup
              (pyLower cls2.typeName)).isSome = true := by
          rw [hkey, hlk]
          rfl
        refine ⟨⟨"Class already registered for name: " ++
          pyLower cls2.typeName ++ "."⟩, ?_⟩
        rw [RegisterVia_ManagerInterface]
        rw [if_pos (rfl : ManagerClass.ManagerInterface =
          ManagerClass.ManagerInterface)]
        have herr : ManagerInterface.Register
            (store ManagerClass.ManagerInterface ++
              [(pyLower cls.typeName, cls)]) cls2 =
            .error ⟨"Class already registered for name: " ++
              pyLower cls2.typeName ++ "."⟩ := by
          simp only [ManagerInterface.Register]
          rw [if_pos hlk2]
          rfl
        rw [herr]

/-- C10 witness: registering RawDisk through `EvidenceManager` on an empty
store makes it visible through `ManagerInterface` and blocks a second
registration of the same name. -/
theorem C10_shared_registry_witness :
    ((readRegistry (fun c2 => if c2 = ManagerClass.ManagerInterface
        then [] ++ [(pyLower "RawDisk", ClassObject.mk "RawDisk")]
        else (fun _ => []) c2)
      .ManagerInterface).lookup (pyLower "RawDisk") =
        some (ClassObject.mk "RawDisk")) ∧
    (∃ err, RegisterVia (fun c2 => if c2 = ManagerClass.ManagerInterface
        then [] ++ [(pyLower "RawDisk", ClassObject.mk "RawDisk")]
        else (fun _ => []) c2)
      .ManagerInterface (ClassObject.mk "RawDisk") = .error err) := by
  have h := C10_shared_registry.2.2 (fun _ => [])
    (fun c2 => if c2 = ManagerClass.ManagerInterface
      then [] ++ [(pyLower "RawDisk", ClassObject.mk "RawDisk")]
      else (fun _ => []) c2)
    (ClassObject.mk "RawDisk") rfl
  exact ⟨h.1, h.2 (ClassObject.mk "RawDisk") rfl⟩

/-! ## Theorems: task statistics (claim C6) -/

instance : IsTotal StatsTask runTimeLE :=
  ⟨fun a b => Nat.le_total a.run_time b.run_time⟩

instance : IsTrans StatsTask runTimeLE :=
  ⟨fun _ _ _ hab hbc => Nat.le_trans hab hbc⟩

/-- In a run-time-sorted list the element at index 0 is a member and has the
smallest run time. -/
theorem sorted_getD_zero_min : ∀ (l : List StatsTask), l ≠ [] →
    l.Pairwise runTimeLE →
    l.getD 0 ⟨0⟩ ∈ l ∧ ∀ t ∈ l, (l.getD 0 ⟨0⟩).run_time ≤ t.run_time
  | [], h, _ => absurd rfl h
  | a :: tl, _, hp => by
    refine ⟨List.mem_cons_self a tl, ?_⟩
    intro t ht
    rcases List.mem_cons.mp ht with h1 | h2
    · subst h1
      rw [List.getD_cons_zero]
    · exact (List.pairwise_cons.mp hp).1 t h2

/-- In a run-time-sorted list the element at the last index is a member and
has the largest run time. -/
theorem sorted_getD_last_max : ∀ (l : List StatsTask), l ≠ [] →
    l.Pairwise runTimeLE →
    l.getD (l.length - 1) ⟨0⟩ ∈ l ∧
      ∀ t ∈ l, t.run_time ≤ (l.getD (l.length - 1) ⟨0⟩).run_time
  | [], h, _ => absurd rfl h
  | [a], _, _ => by
    refine ⟨List.mem_cons_self a [], ?_⟩
    intro t ht
    rcases List.mem_cons.mp ht with h1 | h2
    · subst h1
      simp [List.getD_cons_zero]
    · cases h2
  | a :: b :: tl, _, hp => by
    have hyp := sorted_getD_last_max (b :: tl) (by simp)
      (List.Pairwise.of_cons hp)
    have hgd : (a :: b :: tl).getD ((a :: b :: tl).length - 1) ⟨0⟩
        = (b :: tl).getD ((b :: tl).length - 1) ⟨0⟩ := by
      have h1 : (a :: b :: tl).length - 1 = tl.length + 1 := by simp
      have h2 : (b :: tl).length - 1 = tl.length := by simp
      rw [h1, h2, List.getD_cons_succ]
    rw [hgd]
    refine ⟨List.mem_cons_of_mem a hyp.1, ?_⟩
    intro t ht
    rcases List.mem_cons.mp ht with h1 | h2
    · have hab : runTimeLE a b := (List.pairwise_cons.mp hp).1 b
        (List.mem_cons_self b tl)
      have hbl : b.run_time ≤
          ((b :: tl).getD ((b :: tl).length - 1) ⟨0⟩).run_time :=
        hyp.2 b (List.mem_cons_self b tl)
      rw [h1]
      exact Nat.le_trans hab hbl
    · exact hyp.2 t h2

/-- C6: on a non-empty task list, `calculate_stats` sorts by `run_time` and
takes order statistics: `min` is the smallest run time, `max` the largest and
`mean` the element at sorted index `count // 2` (a median by construction);
on [10s, 20s, 30s] this gives 10s / 20s / 30s, and on the even count
[10s, 20s, 30s, 40s] the `mean` is 30s — index 2 — not the arithmetic
average 25s. -/
theorem C6_calculate_stats_order_statistics (s : TurbiniaStats)
    (h : s.tasks ≠ []) :
    ((∃ t0 ∈ s.tasks,
        (s.calculate_stats).min = some (stripMicroseconds t0.run_time) ∧
        ∀ t ∈ s.tasks, t0.run_time ≤ t.run_time) ∧
      (∃ t1 ∈ s.tasks,
        (s.calculate_stats).max = some (stripMicroseconds t1.run_time) ∧
        ∀ t ∈ s.tasks, t.run_time ≤ t1.run_time) ∧
      (s.calculate_stats).mean = some (stripMicroseconds
        (((s.tasks.insertionSort runTimeLE)).getD (s.count / 2) ⟨0⟩).run_time)) ∧
    (({ tasks := [⟨10000000⟩, ⟨20000000⟩, ⟨30000000⟩] } :
        TurbiniaStats).calculate_stats.min = some 10000000 ∧
      ({ tasks := [⟨10000000⟩, ⟨20000000⟩, ⟨30000000⟩] } :
        TurbiniaStats).calculate_stats.mean = some 20000000 ∧
      ({ tasks := [⟨10000000⟩, ⟨20000000⟩, ⟨30000000⟩] } :
        TurbiniaStats).calculate_stats.max = some 30000000) ∧
    (({ tasks := [⟨10000000⟩, ⟨20000000⟩, ⟨30000000⟩, ⟨40000000⟩] } :
        TurbiniaStats).calculate_stats.mean = some 30000000 ∧
      ({ tasks := [⟨10000000⟩, ⟨20000000⟩, ⟨30000000⟩, ⟨40000000⟩] } :
        TurbiniaStats).calculate_stats.mean ≠ some 25000000) := by
  refine ⟨?_, by decide, by decide⟩
  have hempty : s.tasks.isEmpty = false := by
    cases htasks : s.tasks with
    | nil => exact absurd htasks h
    | cons a tl => rfl
  have hperm : List.Perm (s.tasks.insertionSort runTimeLE) s.tasks :=
    List.perm_insertionSort runTimeLE s.tasks
  have hsorted : (s.tasks.insertionSort runTimeLE).Pairwise runTimeLE :=
    List.sorted_insertionSort runTimeLE s.tasks
  have hne : s.tasks.insertionSort runTimeLE ≠ [] := by
    intro hnil
    rw [hnil] at hperm
    exact h hperm.symm.eq_nil
  have hmin := sorted_getD_zero_min _ hne hsorted
  have hmax := sorted_getD_last_max _ hne hsorted
  have hcalc : s.calculate_stats =
      { s with
        min := some (stripMicroseconds
          ((s.tasks.insertionSort runTimeLE).getD 0 ⟨0⟩).run_time),
        max := some (stripMicroseconds
          ((s.tasks.insertionSort runTimeLE).getD
            ((s.tasks.insertionSort runTimeLE).length - 1) ⟨0⟩).run_time),
        mean := some (stripMicroseconds
          ((s.tasks.insertionSort runTimeLE).getD
            ((s.tasks.insertionSort runTimeLE).length / 2) ⟨0⟩).run_time) } := by
    simp only [TurbiniaStats.calculate_stats, hempty, Bool.false_eq_true,
      if_false]
  refine ⟨⟨(s.tasks.insertionSort runTimeLE).getD 0 ⟨0⟩,
      hperm.mem_iff.mp hmin.1, ?_, ?_⟩,
    ⟨(s.tasks.insertionSort runTimeLE).getD
        ((s.tasks.insertionSort runTimeLE).length - 1) ⟨0⟩,
      hperm.mem_iff.mp hmax.1, ?_, ?_⟩, ?_⟩
  · rw [hcalc]
  · intro t ht
    exact hmin.2 t (hperm.mem_iff.mpr ht)
  · rw [hcalc]
  · intro t ht
    exact hmax.2 t (hperm.mem_iff.mpr ht)
  · rw [hcalc]
    have hlen : (s.tasks.insertionSort runTimeLE).length = s.count :=
      hperm.length_eq
    rw [hlen]

/-- C6 witness: the theorem applied to a concrete single-task list. -/
theorem C6_calculate_stats_order_statistics_witness :
    (({ tasks := [⟨10000000⟩] } : TurbiniaStats).tasks ≠ []) ∧
    (({ tasks := [⟨10000000⟩] } : TurbiniaStats).calculate_stats).mean =
      some (stripMicroseconds
        (((({ tasks := [⟨10000000⟩] } : TurbiniaStats).tasks.insertionSort
          runTimeLE)).getD
            (({ tasks := [⟨10000000⟩] } : TurbiniaStats).count / 2)
            ⟨0⟩).run_time) :=
  ⟨by decide,
    (C6_calculate_stats_order_statistics { tasks := [⟨10000000⟩] }
      (by decide)).1.2.2⟩

/-! ## Theorems: the evidence pre/post-processing chain (claims C1, C2, C3, C5) -/

/-- C2 as stated is false: `preprocess` of a context-dependent evidence with
no parent does raise, but it is not free of side effects — line 460 has
already reset `local_path` to `source_path`, overwriting its prior value. -/
theorem C2_counterexample :
    (Evidence.preprocess (fun c _ _ => (c, none)) "task-1" none []
        (.mk { etype := .DiskPartition, context_dependent := true,
               source_path := some "src", local_path := some "prior" }
          none []) []).exc.isSome = true ∧
    (Evidence.preprocess (fun c _ _ => (c, none)) "task-1" none []
        (.mk { etype := .DiskPartition, context_dependent := true,
               source_path := some "src", local_path := some "prior" }
          none []) []).evd.core.local_path = some "src" ∧
    (Evidence.mk { etype := .DiskPartition, context_dependent := true,
                   source_path := some "src", local_path := some "prior" }
      none []).core.local_path = some "prior" :=
  ⟨rfl, rfl, rfl⟩

/-- C2 (amended): for a context-dependent evidence with no parent,
`preprocess` raises the validation `TurbiniaException` and performs no side
effect beyond the initial reset of `local_path` to `source_path`: the trace
is empty (no hook runs, no resource is touched), the resource table is
unchanged, and every other attribute keeps its value. -/
theorem C2_amended_missing_parent (hook : PreHook) (task_id : String)
    (tmp_dir : Option String) (required_states : List EvidenceState)
    (core : EvidenceCore) (coll : List Evidence) (rs : ResourceState)
    (h : core.context_dependent = true) :
    Evidence.preprocess hook task_id tmp_dir required_states
        (.mk core none coll) rs =
      { trace := [], rstate := rs,
        evd := .mk { core with local_path := core.source_path } none coll,
        exc := some (needsParentMessage core) } := by
  simp [Evidence.preprocess, h, needsParentMessage]

/-- C2 witness: the amended theorem at a concrete context-dependent
evidence. -/
theorem C2_amended_missing_parent_witness :
    ({ etype := EvidenceType.DiskPartition, context_dependent := true,
       source_path := some "src",
       local_path := some "prior" } : EvidenceCore).context_dependent = true ∧
    Evidence.preprocess (fun c _ _ => (c, none)) "task-1" none []
        (.mk { etype := .DiskPartition, context_dependent := true,
               source_path := some "src", local_path := some "prior" }
          none []) [] =
      { trace := [], rstate := [],
        evd := .mk { etype := .DiskPartition, context_dependent := true,
                     source_path := some "src",
                     local_path := some "src" } none [],
        exc := some (needsParentMessage
          { etype := .DiskPartition,
            context_dependent := true, source_path := some "src",
            local_path := some "prior" }) } :=
  ⟨rfl,
    C2_amended_missing_parent (fun c _ _ => (c, none)) "task-1" none []
      { etype := .DiskPartition, context_dependent := true,
        source_path := some "src", local_path := some "prior" } [] [] rfl⟩

/-- Whether a call of `preprocess` raises: it does exactly when the chain of
context-dependent recursion reaches a context-dependent evidence with no
parent (the only uncaught raise in the wrapper). -/
def Evidence.preprocessRaises : Evidence → Bool
  | .mk core none _ => core.context_dependent
  | .mk core (some p) _ => core.context_dependent && p.preprocessRaises

/-- Masking a hook's raised exception does not change the own-part of the
wrapper: the caught exception is discarded and the mutated object kept. -/
theorem preprocessOwn_mask (hook : PreHook) (task_id : String)
    (tmp_dir : Option String) (required_states : List EvidenceState)
    (core : EvidenceCore) (rs : ResourceState) :
    preprocessOwn (fun c t r => ((hook c t r).1, none)) task_id tmp_dir
        required_states core rs =
      preprocessOwn hook task_id tmp_dir required_states core rs := rfl

/-- C5: the wrapper catches a `TurbiniaException` raised by the variant's own
hook — its whole outcome (trace, resource table, evidence, exception) equals
the outcome with the hook's exception masked — and whenever the
context-dependent chain itself does not raise, `preprocess` returns normally,
whatever the hook did. -/
theorem C5_hook_failure_caught (hook : PreHook) (task_id : String)
    (tmp_dir : Option String) (required_states : List EvidenceState) :
    ∀ (e : Evidence) (rs : ResourceState),
      Evidence.preprocess hook task_id tmp_dir required_states e rs =
        Evidence.preprocess (fun c t r => ((hook c t r).1, none)) task_id
          tmp_dir required_states e rs ∧
      (e.preprocessRaises = false →
        (Evidence.preprocess hook task_id tmp_dir required_states e rs).exc =
          none)
  | .mk core none coll, rs => by
    constructor
    · rfl
    · intro hr
      have hcd : core.context_dependent = false := hr
      simp [Evidence.preprocess, hcd]
  | .mk core (some p) coll, rs => by
    have ih := C5_hook_failure_caught hook task_id tmp_dir required_states p rs
    constructor
    · simp only [Evidence.preprocess]
      rw [ih.1]
      rfl
    · intro hr
      simp only [Evidence.preprocessRaises] at hr
      cases hcd : core.context_dependent with
      | false =>
        simp [Evidence.preprocess, hcd]
      | true =>
        rw [hcd, Bool.true_and] at hr
        have hex := ih.2 hr
        simp only [Evidence.preprocess, hcd, if_true]
        rw [hex]

/-- C5 witness: a hook that raises on a plain evidence; preprocess still
returns normally. -/
theorem C5_hook_failure_caught_witness :
    (Evidence.mk { etype := EvidenceType.RawDisk,
                   source_path := some "disk.img" } none []).preprocessRaises
      = false ∧
    (Evidence.preprocess (fun c _ _ => (c, some ⟨"hook failed"⟩)) "task-1"
        none [] (.mk { etype := .RawDisk, source_path := some "disk.img" }
          none []) []).exc = none :=
  ⟨rfl,
    (C5_hook_failure_caught (fun c _ _ => (c, some ⟨"hook failed"⟩)) "task-1"
      none [] (.mk { etype := .RawDisk, source_path := some "disk.img" }
        none []) []).2 rfl⟩

/-- C1 as stated is false: `preprocess` recurses to the parent only when the
evidence is context dependent (interface.py lines 464-468).  A concrete
evidence with a non-null `parent_evidence` whose `context_dependent` flag is
false — the state `set_parent` produces — runs only its own hook: the trace
holds the child's hook invocation alone, and the parent's hook is never
invoked (neither with the parent's attributes as stored nor with its
`local_path` reset). -/
theorem C1_counterexample :
    (Evidence.preprocess (fun c _ _ => (c, none)) "task-1" none []
        (.mk { etype := .CompressedDirectory, source_path := some "dir.tgz" }
          (some (.mk { etype := .RawDisk, source_path := some "disk.img" }
            none []))
          []) []).trace =
      [Event.preHook { etype := .CompressedDirectory,
                       source_path := some "dir.tgz",
                       local_path := some "dir.tgz" }] ∧
    Event.preHook { etype := .RawDisk, source_path := some "disk.img" } ∉
      (Evidence.preprocess (fun c _ _ => (c, none)) "task-1" none []
        (.mk { etype := .CompressedDirectory, source_path := some "dir.tgz" }
          (some (.mk { etype := .RawDisk, source_path := some "disk.img" }
            none []))
          []) []).trace ∧
    Event.preHook { etype := .RawDisk, source_path := some "disk.img",
                    local_path := some "disk.img" } ∉
      (Evidence.preprocess (fun c _ _ => (c, none)) "task-1" none []
        (.mk { etype := .CompressedDirectory, source_path := some "dir.tgz" }
          (some (.mk { etype := .RawDisk, source_path := some "disk.img" }
            none []))
          []) []).trace := by
  refine ⟨rfl, by decide, by decide⟩

/-- C1 (amended): for every evidence whose `context_dependent` flag is true
and whose parent is non-null, the `preprocess` trace is the parent's entire
trace (recursively, most distant ancestor first) followed by the child's own
events — which end in the child's own hook invocation and appear only when
the parent chain raised nothing; and for every evidence with a non-null
parent, regardless of `context_dependent`, the `postprocess` trace is the
child's own events (the child's hook invocation, for evidence that is not
resource tracked) strictly before the parent's entire trace. -/
theorem C1_amended_chain_order :
    (∀ (hook : PreHook) (task_id : String) (tmp_dir : Option String)
        (required_states : List EvidenceState) (core : EvidenceCore)
        (p : Evidence) (coll : List Evidence) (rs : ResourceState),
      core.context_dependent = true →
      (Evidence.preprocess hook task_id tmp_dir required_states
          (.mk core (some p) coll) rs).trace =
        (Evidence.preprocess hook task_id tmp_dir required_states p rs).trace
          ++
          (if (Evidence.preprocess hook task_id tmp_dir required_states p
              rs).exc = none then
            (preprocessOwn hook task_id tmp_dir required_states
              { core with local_path := core.source_path }
              (Evidence.preprocess hook task_id tmp_dir required_states p
                rs).rstate).1
          else [])) ∧
    (∀ (hook : PreHook) (task_id : String) (tmp_dir : Option String)
        (required_states : List EvidenceState) (core : EvidenceCore)
        (rs : ResourceState),
      (preprocessOwn hook task_id tmp_dir required_states core rs).1 =
        (if core.resource_tracked then
          [Event.lockAcquire, Event.preResource core.resource_id task_id,
            Event.lockRelease]
        else []) ++ [Event.preHook core]) ∧
    (∀ (hook : PostHook) (task_id : String) (core : EvidenceCore)
        (p : Evidence) (coll : List Evidence) (rs : ResourceState),
      (Evidence.postprocess hook task_id (.mk core (some p) coll) rs).trace =
        (postprocessOwn hook task_id core rs).1 ++
          (p.postprocess hook task_id
            (postprocessOwn hook task_id core rs).2.1).trace ∧
      (core.resource_tracked = false →
        (postprocessOwn hook task_id core rs).1 = [Event.postHook core])) := by
  refine ⟨?_, ?_, ?_⟩
  · intro hook task_id tmp_dir required_states core p coll rs h
    simp only [Evidence.preprocess, h, if_true]
    cases hexc : (Evidence.preprocess hook task_id tmp_dir required_states
        p rs).exc with
    | some ex => simp
    | none => simp
  · intro hook task_id tmp_dir required_states core rs
    rfl
  · intro hook task_id core p coll rs
    exact ⟨rfl, fun hrt => by simp [postprocessOwn, hrt]⟩

/-- C1 witness: the amended theorem at a concrete two-level chain. -/
theorem C1_amended_chain_order_witness :
    ({ etype := EvidenceType.DiskPartition, context_dependent := true,
       partition_location := some "p1" } :
        EvidenceCore).context_dependent = true ∧
    (Evidence.preprocess (fun c _ _ => (c, none)) "task-1" none []
        (.mk { etype := .DiskPartition, context_dependent := true,
               partition_location := some "p1" }
          (some (.mk { etype := .RawDisk, source_path := some "disk.img" }
            none []))
          []) []).trace =
      (Evidence.preprocess (fun c _ _ => (c, none)) "task-1" none []
        (.mk { etype := .RawDisk, source_path := some "disk.img" } none [])
        []).trace ++
        (if (Evidence.preprocess (fun c _ _ => (c, none)) "task-1" none []
            (.mk { etype := .RawDisk, source_path := some "disk.img" } none
              []) []).exc = none then
          (preprocessOwn (fun c _ _ => (c, none)) "task-1" none []
            { etype := .DiskPartition, context_dependent := true,
              partition_location := some "p1" }
            (Evidence.preprocess (fun c _ _ => (c, none)) "task-1" none []
              (.mk { etype := .RawDisk, source_path := some "disk.img" } none
                []) []).rstate).1
        else []) :=
  ⟨rfl,
    C1_amended_chain_order.1 (fun c _ _ => (c, none)) "task-1" none []
      { etype := .DiskPartition, context_dependent := true,
        partition_location := some "p1" }
      (.mk { etype := .RawDisk, source_path := some "disk.img" } none [])
      [] [] rfl⟩

/-- C3: for resource-tracked evidence, `postprocess` releases the claim of
`task_id` and runs the physical-teardown hook if and only if that release
reports the claim set empty; all of it — the removal, the emptiness decision
and the teardown — happens between one `lockAcquire` and its `lockRelease`,
and when other tasks still hold claims the hook is skipped (the evidence
object is returned untouched).  The parent chain is postprocessed
afterwards, outside that lock scope. -/
theorem C3_resource_release_teardown (hook : PostHook) (task_id : String)
    (core : EvidenceCore) (parent : Option Evidence) (coll : List Evidence)
    (rs : ResourceState) (h : core.resource_tracked = true) :
    (postprocessOwn hook task_id core rs).1 =
      [Event.lockAcquire, Event.postResource core.resource_id task_id] ++
        (if (PostProcessResourceState rs core.resource_id task_id).2 then
          [Event.postHook core]
        else []) ++ [Event.lockRelease] ∧
    (postprocessOwn hook task_id core rs).2.1 =
      (PostProcessResourceState rs core.resource_id task_id).1 ∧
    (postprocessOwn hook task_id core rs).2.2 =
      (if (PostProcessResourceState rs core.resource_id task_id).2 then
        hook core
      else core) ∧
    (Evidence.postprocess hook task_id (.mk core parent coll) rs).trace =
      (postprocessOwn hook task_id core rs).1 ++
        (match parent with
          | none => []
          | some p => (p.postprocess hook task_id
              (PostProcessResourceState rs core.resource_id task_id).1).trace) := by
  refine ⟨?_, ?_, ?_, ?_⟩
  · simp only [postprocessOwn, h, if_true]
    cases hb : (PostProcessResourceState rs core.resource_id task_id).2 <;>
      simp [hb]
  · simp only [postprocessOwn, h, if_true]
    cases hb : (PostProcessResourceState rs core.resource_id task_id).2 <;>
      simp [hb]
  · simp only [postprocessOwn, h, if_true]
    cases hb : (PostProcessResourceState rs core.resource_id task_id).2 <;>
      simp [hb]
  · cases parent with
    | none => simp [Evidence.postprocess]
    | some p =>
      simp only [Evidence.postprocess]
      have hrs : (postprocessOwn hook task_id core rs).2.1 =
          (PostProcessResourceState rs core.resource_id task_id).1 := by
        simp only [postprocessOwn, h, if_true]
        cases hb : (PostProcessResourceState rs core.resource_id task_id).2 <;>
          simp [hb]
      rw [hrs]

/-- C3 witness: a disk claimed by two tasks; releasing one keeps the claim
set non-empty, so the teardown hook is skipped inside the lock scope. -/
theorem C3_resource_release_teardown_witness :
    ({ etype := EvidenceType.GoogleCloudDisk, resource_tracked := true,
       resource_id := some "disk-1" } : EvidenceCore).resource_tracked
      = true ∧
    (postprocessOwn (fun c => c) "task-1"
        { etype := .GoogleCloudDisk, resource_tracked := true,
          resource_id := some "disk-1" }
        [(some "disk-1", ["task-1", "task-2"])]).1 =
      [Event.lockAcquire,
        Event.postResource (some "disk-1") "task-1"] ++
        (if (PostProcessResourceState [(some "disk-1", ["task-1", "task-2"])]
            (some "disk-1") "task-1").2 then
          [Event.postHook { etype := .GoogleCloudDisk,
                            resource_tracked := true,
                            resource_id := some "disk-1" }]
        else []) ++ [Event.lockRelease] :=
  ⟨rfl,
    (C3_resource_release_teardown (fun c => c) "task-1"
      { etype := .GoogleCloudDisk, resource_tracked := true,
        resource_id := some "disk-1" }
      none [] [(some "disk-1", ["task-1", "task-2"])] rfl).1⟩

/-! ## Theorems: serialization round trip (claim C4) -/

/-- No modelled class name is the empty string. -/
theorem className_ne_empty (ty : EvidenceType) :
    (ty.className == "") = false := by cases ty <;> rfl

/-- The class lookup inverts the class name. -/
theorem classForName_className (ty : EvidenceType) :
    classForName ty.className = some ty := by cases ty <;> rfl

/-- Boolean helper for the constructor's copyable check. -/
theorem copyable_check_false (a b : Bool) (h : (!a || b) = true) :
    (a && !b) = false := by
  revert h
  cases a <;> cases b <;> decide

/-- Decoding the serialized form of a decodable evidence rebuilds it exactly,
up to the reinitialized `state` and the cleared `path_spec`. -/
theorem decode_serialize_roundtrip : ∀ (e : Evidence),
    e.decodable = true →
    evidence_decode_dict e.serialize = .ok e.resetTransient
  | .mk core none coll, h => by
    have hparts : ((!core.etype.initCopyable || strTruthy core.source_path)
        && coll.isEmpty) = true := h
    rcases Bool.and_eq_true_iff.mp hparts with ⟨h1, h2⟩
    have hcoll : coll = [] := by
      cases coll with
      | nil => rfl
      | cons a l => exact absurd h2 (by simp [List.isEmpty])
    subst hcoll
    have h3 : (core.etype.initCopyable && !(strTruthy core.source_path))
        = false := copyable_check_false _ _ h1
    simp only [Evidence.serialize, evidence_decode_dict, className_ne_empty,
      Bool.false_eq_true, if_false, classForName_className, h3,
      List.map_nil, evidence_decode_collection]
    rfl
  | .mk core (some p) coll, h => by
    have hparts : (((!core.etype.initCopyable || strTruthy core.source_path)
        && coll.isEmpty) && p.decodable) = true := h
    rcases Bool.and_eq_true_iff.mp hparts with ⟨h12, hp⟩
    rcases Bool.and_eq_true_iff.mp h12 with ⟨h1, h2⟩
    have hcoll : coll = [] := by
      cases coll with
      | nil => rfl
      | cons a l => exact absurd h2 (by simp [List.isEmpty])
    subst hcoll
    have h3 : (core.etype.initCopyable && !(strTruthy core.source_path))
        = false := copyable_check_false _ _ h1
    have ih := decode_serialize_roundtrip p hp
    simp only [Evidence.serialize, evidence_decode_dict, className_ne_empty,
      Bool.false_eq_true, if_false, classForName_className, h3, ih,
      List.map_nil, evidence_decode_collection]
    rfl

/-- A RawDisk in attached state carrying a partition path spec. -/
def sampleAttachedRawDisk : Evidence :=
  .mk { etype := .RawDisk
        source_path := some "disk.img"
        state := initialStateMap.set .ATTACHED true
        path_spec := some "ps-1" } none []

/-- An Evidence holding a populated collection. -/
def sampleCollectionEvidence : Evidence :=
  .mk { etype := .Evidence }
    none
    [Evidence.mk { etype := .RawDisk, source_path := some "d" } none []]

/-- C4 fails as stated: decoding a serialized Evidence does not restore all
attributes.  A `RawDisk` whose ATTACHED flag is true and whose `path_spec` is
set decodes to a value with the flag reinitialized to false and `path_spec`
cleared; and an Evidence with a populated `collection` does not round-trip at
all — `serialize` leaves the collection elements as raw objects (interface.py
lines 352-360 recurse only into `parent_evidence`), which `evidence_decode`
rejects as non-dicts (lines 130-133). -/
theorem C4_counterexample :
    sampleAttachedRawDisk.core.state.get .ATTACHED = some true ∧
    evidence_decode_dict sampleAttachedRawDisk.serialize =
      .ok (.mk { etype := .RawDisk
                 source_path := some "disk.img"
                 state := initialStateMap
                 path_spec := none } none []) ∧
    (Evidence.mk { etype := .RawDisk
                   source_path := some "disk.img"
                   state := initialStateMap
                   path_spec := none } none
      []).core.state.get .ATTACHED = some false ∧
    evidence_decode_dict sampleCollectionEvidence.serialize =
      .error notADictMessage := by
  refine ⟨by decide, by rfl, by decide, by rfl⟩

/-- C4 (amended): for every Evidence along whose parent chain no node has a
populated `collection` and every copyable-at-construction variant has a
truthy `source_path`, decoding the serialized form succeeds and yields an
Evidence of the same variant type, equal in every attribute except that the
`state` of every node is reinitialized to all-false and its `path_spec` is
cleared (`resetTransient`); evidence with a populated `collection` fails to
decode because `serialize` does not recurse into it. -/
theorem C4_amended_roundtrip (e : Evidence) (h : e.decodable = true) :
    EvidenceManager.evidence_decode (.dict e.serialize) =
      .ok e.resetTransient := by
  show evidence_decode_dict e.serialize = .ok e.resetTransient
  exact decode_serialize_roundtrip e h

/-- C4 witness: a concrete attached RawDisk round-trips to its
transient-reset form. -/
theorem C4_amended_roundtrip_witness :
    sampleAttachedRawDisk.decodable = true ∧
    EvidenceManager.evidence_decode (.dict sampleAttachedRawDisk.serialize) =
      .ok sampleAttachedRawDisk.resetTransient :=
  ⟨rfl, C4_amended_roundtrip sampleAttachedRawDisk rfl⟩

/-! ## Theorems: the state-flag invariant (claim C8) -/

/-- Replacing the value stored under flag `f` commutes with `find?` for any
flag, since the replacement keeps every key. -/
theorem find?_map_replace (m : StateMap) (f g : EvidenceState) (v : Bool) :
    (m.map (fun p => if p.1 == f then (p.1, v) else p)).find?
        (fun p => p.1 == g)
      = (m.find? (fun p => p.1 == g)).map
          (fun p => if p.1 == f then (p.1, v) else p) := by
  induction m with
  | nil => rfl
  | cons hd tl ih =>
    obtain ⟨k, b⟩ := hd
    have hfst : ((if (k, b).1 == f then ((k, b).1, v) else (k, b)) :
        EvidenceState × Bool).1 = k := by
      by_cases hk : ((k, b).1 == f) = true <;> simp [hk]
    simp only [List.map_cons, List.find?]
    rw [hfst]
    cases hkg : (k == g) with
    | true => simp [hkg]
    | false => simpa [hkg] using ih

/-- Setting a flag makes that flag's entry hold the new value. -/
theorem StateMap.get_set_self (m : StateMap) (f : EvidenceState) (v : Bool) :
    (m.set f v).get f = some v := by
  simp only [StateMap.set]
  split
  · rename_i hany
    simp only [StateMap.get, find?_map_replace]
    have hsome : (m.find? (fun p => p.1 == f)).isSome := by
      rw [List.find?_isSome]
      simpa using hany
    obtain ⟨⟨k, b⟩, hfind⟩ := Option.isSome_iff_exists.mp hsome
    have hk := List.find?_some hfind
    have hk2 : k = f := by simpa using hk
    rw [hfind]
    simp [hk2]
  · rename_i hany
    have hnone : m.find? (fun p => p.1 == f) = none := by
      rw [List.find?_eq_none]
      intro x hx
      intro hpx
      exact hany (List.any_eq_true.mpr ⟨x, hx, hpx⟩)
    simp [StateMap.get, List.find?_append, hnone, List.find?]

/-- Setting one flag leaves every other flag's entry unchanged. -/
theorem StateMap.get_set_other (m : StateMap) (f g : EvidenceState)
    (v : Bool) (hgf : g ≠ f) : (m.set f v).get g = m.get g := by
  simp only [StateMap.set]
  split
  · simp only [StateMap.get, find?_map_replace]
    cases hfind : m.find? (fun p => p.1 == g) with
    | none => rfl
    | some p =>
      obtain ⟨k, b⟩ := p
      have hk := List.find?_some hfind
      have hkg : k = g := by simpa using hk
      have hkf : ¬(k = f) := by
        subst hkg
        exact hgf
      simp [hkf]
  · have hfg : ((f, v).1 == g) = false := by
      cases hfg2 : ((f, v).1 == g) with
      | true =>
        exact absurd ((by simpa using hfg2 : f = g)).symm hgf
      | false => rfl
    simp [StateMap.get, List.find?_append, List.find?, hfg]

/-- A state dict with an entry for every defined flag. -/
def StateMap.total (m : StateMap) : Prop :=
  ∀ f : EvidenceState, (m.get f).isSome = true

/-- The freshly built state dict has an entry for every flag, all false. -/
theorem initialStateMap_get : ∀ f : EvidenceState,
    initialStateMap.get f = some false := by
  intro f
  cases f <;> rfl

/-- Setting a flag preserves having an entry for every flag. -/
theorem StateMap.total_set (m : StateMap) (fl : EvidenceState) (v : Bool)
    (h : StateMap.total m) : StateMap.total (m.set fl v) := by
  intro g
  by_cases hg : g = fl
  · subst hg
    rw [StateMap.get_set_self]
    rfl
  · rw [StateMap.get_set_other m fl g v hg]
    exact h g

/-- A set flag that reads true was either already true or is the flag that
was set to true. -/
theorem StateMap.set_true_source (m : StateMap) (fl : EvidenceState)
    (v : Bool) (f : EvidenceState)
    (h : (m.set fl v).get f = some true) :
    m.get f = some true ∨ f = fl := by
  by_cases hf : f = fl
  · exact Or.inr hf
  · rw [StateMap.get_set_other m fl f v hf] at h
    exact Or.inl h

mutual

/-- Every node of the evidence graph carries the freshly initialized state
dict. -/
def Evidence.statesFresh : Evidence → Prop
  | .mk core parent coll =>
    core.state = initialStateMap ∧ statesFreshOpt parent ∧
      statesFreshList coll

/-- Freshness of an optional parent. -/
def statesFreshOpt : Option Evidence → Prop
  | none => True
  | some e => e.statesFresh

/-- Freshness of a collection. -/
def statesFreshList : List Evidence → Prop
  | [] => True
  | e :: rest => e.statesFresh ∧ statesFreshList rest

end

mutual

/-- Every node produced by a successful decode carries the freshly
reinitialized state dict (interface.py lines 158-162 for the node itself and,
through the recursive `evidence_decode` calls, for the parent chain and the
collection). -/
theorem decode_dict_statesFresh : ∀ (s : SerializedEvidence) (e : Evidence),
    evidence_decode_dict s = .ok e → e.statesFresh
  | .mk typeName attrs none scoll, e, h => by
    simp only [evidence_decode_dict] at h
    split at h
    · exact Except.noConfusion h
    · split at h
      · exact Except.noConfusion h
      · split at h
        · exact Except.noConfusion h
        · split at h
          · exact Except.noConfusion h
          · rename_i ty hty hcopy coll hcoll
            injection h with h2
            subst h2
            refine ⟨rfl, trivial, ?_⟩
            exact decode_coll_statesFresh scoll coll hcoll
  | .mk typeName attrs (some sp) scoll, e, h => by
    simp only [evidence_decode_dict] at h
    split at h
    · exact Except.noConfusion h
    · split at h
      · exact Except.noConfusion h
      · split at h
        · exact Except.noConfusion h
        · split at h
          · exact Except.noConfusion h
          · rename_i ty hty hcopy parent hparent
            split at h
            · exact Except.noConfusion h
            · rename_i coll hcoll
              injection h with h2
              subst h2
              refine ⟨rfl, ?_, ?_⟩
              · exact decode_dict_statesFresh sp parent hparent
              · exact decode_coll_statesFresh scoll coll hcoll

/-- Companion of `decode_dict_statesFresh` for a decoded value. -/
theorem decode_item_statesFresh : ∀ (i : SerializedItem) (e : Evidence),
    EvidenceManager.evidence_decode i = .ok e → e.statesFresh
  | .obj _, _, h => Except.noConfusion h
  | .dict d, e, h => decode_dict_statesFresh d e h

/-- Companion of `decode_dict_statesFresh` for a decoded collection. -/
theorem decode_coll_statesFresh : ∀ (l : List SerializedItem)
    (es : List Evidence),
    evidence_decode_collection l = .ok es → statesFreshList es
  | [], es, h => by
    injection h with h2
    subst h2
    trivial
  | i :: rest, es, h => by
    simp only [evidence_decode_collection] at h
    split at h
    · exact Except.noConfusion h
    · rename_i e he
      split at h
      · exact Except.noConfusion h
      · rename_i es2 hes2
        injection h with h2
        subst h2
        exact ⟨decode_item_statesFresh i e he,
          decode_coll_statesFresh rest es2 hes2⟩

end

/-- The two properties C8 asks of a hook run on a variant `ty`: the state
dict keeps an entry for every flag, and any flag that reads true afterwards
was already true or belongs to the variant's possible states. -/
def hookStateOK (ty : EvidenceType) (before after : StateMap) : Prop :=
  (StateMap.total before → StateMap.total after) ∧
  ∀ f, after.get f = some true →
    before.get f = some true ∨ f ∈ ty.POSSIBLE_STATES

/-- A hook that leaves the state untouched is fine. -/
theorem hookStateOK_refl (ty : EvidenceType) (m : StateMap) :
    hookStateOK ty m m :=
  ⟨id, fun _ h => Or.inl h⟩

/-- A hook that sets one possible flag is fine. -/
theorem hookStateOK_set (ty : EvidenceType) (m : StateMap)
    (fl : EvidenceState) (v : Bool) (hmem : fl ∈ ty.POSSIBLE_STATES) :
    hookStateOK ty m (m.set fl v) := by
  refine ⟨StateMap.total_set m fl v, ?_⟩
  intro f h
  rcases StateMap.set_true_source m fl v f h with h1 | h1
  · exact Or.inl h1
  · exact Or.inr (h1 ▸ hmem)

/-- The hook properties compose. -/
theorem hookStateOK_comp (ty : EvidenceType) (m1 m2 m3 : StateMap)
    (h12 : hookStateOK ty m1 m2) (h23 : hookStateOK ty m2 m3) :
    hookStateOK ty m1 m3 := by
  refine ⟨fun h => h23.1 (h12.1 h), ?_⟩
  intro f h
  rcases h23.2 f h with h1 | h1
  · exact h12.2 f h1
  · exact Or.inr h1

/-- C8 for `RawDisk._preprocess`: only ATTACHED — a possible state of
RawDisk — is ever newly set. -/
theorem RawDisk_preprocess_stateOK (G : Option String → Option Nat)
    (P : Option String → String) (rs : List EvidenceState)
    (e : EvidenceCore) :
    hookStateOK .RawDisk e.state (RawDisk_preprocess G P rs e).state := by
  simp only [RawDisk_preprocess]
  split <;> split
  all_goals first
    | exact hookStateOK_refl _ _
    | exact hookStateOK_set _ _ EvidenceState.ATTACHED true
        (by decide : EvidenceState.ATTACHED ∈ EvidenceType.RawDisk.POSSIBLE_STATES)

/-- C8 for `RawDisk._postprocess`. -/
theorem RawDisk_postprocess_stateOK (e : EvidenceCore) :
    hookStateOK .RawDisk e.state (RawDisk_postprocess e).state := by
  simp only [RawDisk_postprocess]
  split
  all_goals first
    | exact hookStateOK_refl _ _
    | exact hookStateOK_set _ _ EvidenceState.ATTACHED false
        (by decide : EvidenceState.ATTACHED ∈ EvidenceType.RawDisk.POSSIBLE_STATES)

/-- C8 for `EwfDisk._preprocess`. -/
theorem EwfDisk_preprocess_stateOK (M : Option String → String)
    (G : String → String) (rs : List EvidenceState) (e : EvidenceCore) :
    hookStateOK .EwfDisk e.state (EwfDisk_preprocess M G rs e).state := by
  simp only [EwfDisk_preprocess]
  split
  all_goals first
    | exact hookStateOK_refl _ _
    | exact hookStateOK_set _ _ EvidenceState.ATTACHED true
        (by decide : EvidenceState.ATTACHED ∈ EvidenceType.EwfDisk.POSSIBLE_STATES)

/-- C8 for `EwfDisk._postprocess`. -/
theorem EwfDisk_postprocess_stateOK (e : EvidenceCore) :
    hookStateOK .EwfDisk e.state (EwfDisk_postprocess e).state := by
  simp only [EwfDisk_postprocess]
  split
  all_goals first
    | exact hookStateOK_refl _ _
    | exact hookStateOK_set _ _ EvidenceState.ATTACHED false
        (by decide : EvidenceState.ATTACHED ∈ EvidenceType.EwfDisk.POSSIBLE_STATES)

/-- C8 for `CompressedDirectory._preprocess`. -/
theorem CompressedDirectory_preprocess_stateOK (U : Option String → Option String → String) (tmp : Option String)
    (rs : List EvidenceState) (e : EvidenceCore) :
    hookStateOK .CompressedDirectory e.state (CompressedDirectory_preprocess U tmp rs e).state := by
  simp only [CompressedDirectory_preprocess]
  split
  all_goals first
    | exact hookStateOK_refl _ _
    | exact hookStateOK_set _ _ EvidenceState.DECOMPRESSED true
        (by decide : EvidenceState.DECOMPRESSED ∈ EvidenceType.CompressedDirectory.POSSIBLE_STATES)

/-- C8 for `DockerContainer._preprocess`. -/
theorem DockerContainer_preprocess_stateOK (G : Option String → String)
    (P : String → Option String → String) (pm : Option String)
    (rs : List EvidenceState) (e : EvidenceCore) :
    hookStateOK .DockerContainer e.state (DockerContainer_preprocess G P pm rs e).state := by
  simp only [DockerContainer_preprocess]
  split
  all_goals first
    | exact hookStateOK_refl _ _
    | exact hookStateOK_set _ _ EvidenceState.CONTAINER_MOUNTED true
        (by decide : EvidenceState.CONTAINER_MOUNTED ∈ EvidenceType.DockerContainer.POSSIBLE_STATES)

/-- C8 for `DockerContainer._postprocess`. -/
theorem DockerContainer_postprocess_stateOK (e : EvidenceCore) :
    hookStateOK .DockerContainer e.state (DockerContainer_postprocess e).state := by
  simp only [DockerContainer_postprocess]
  split
  all_goals first
    | exact hookStateOK_refl _ _
    | exact hookStateOK_set _ _ EvidenceState.CONTAINER_MOUNTED false
        (by decide : EvidenceState.CONTAINER_MOUNTED ∈ EvidenceType.DockerContainer.POSSIBLE_STATES)

/-- C8 for `ContainerdContainer._preprocess`. -/
theorem ContainerdContainer_preprocess_stateOK (P : Option String → Option String → Option String → String)
    (pm : Option String) (rs : List EvidenceState) (e : EvidenceCore) :
    hookStateOK .ContainerdContainer e.state (ContainerdContainer_preprocess P pm rs e).state := by
  simp only [ContainerdContainer_preprocess]
  split
  all_goals first
    | exact hookStateOK_refl _ _
    | exact hookStateOK_set _ _ EvidenceState.CONTAINER_MOUNTED true
        (by decide : EvidenceState.CONTAINER_MOUNTED ∈ EvidenceType.ContainerdContainer.POSSIBLE_STATES)

/-- C8 for `ContainerdContainer._postprocess`. -/
theorem ContainerdContainer_postprocess_stateOK (e : EvidenceCore) :
    hookStateOK .ContainerdContainer e.state (ContainerdContainer_postprocess e).state := by
  simp only [ContainerdContainer_postprocess]
  split
  all_goals first
    | exact hookStateOK_refl _ _
    | exact hookStateOK_set _ _ EvidenceState.CONTAINER_MOUNTED false
        (by decide : EvidenceState.CONTAINER_MOUNTED ∈ EvidenceType.ContainerdContainer.POSSIBLE_STATES)

/-- C8 for `GoogleCloudDisk._preprocess`. -/
theorem GoogleCloudDisk_preprocess_stateOK (P : Option String → String × List String) (rs : List EvidenceState)
    (e : EvidenceCore) :
    hookStateOK .GoogleCloudDisk e.state (GoogleCloudDisk_preprocess P rs e).state := by
  simp only [GoogleCloudDisk_preprocess]
  split
  all_goals first
    | exact hookStateOK_refl _ _
    | exact hookStateOK_set _ _ EvidenceState.ATTACHED true
        (by decide : EvidenceState.ATTACHED ∈ EvidenceType.GoogleCloudDisk.POSSIBLE_STATES)

/-- C8 for `GoogleCloudDisk._postprocess`. -/
theorem GoogleCloudDisk_postprocess_stateOK (e : EvidenceCore) :
    hookStateOK .GoogleCloudDisk e.state (GoogleCloudDisk_postprocess e).state := by
  simp only [GoogleCloudDisk_postprocess]
  split
  all_goals first
    | exact hookStateOK_refl _ _
    | exact hookStateOK_set _ _ EvidenceState.ATTACHED false
        (by decide : EvidenceState.ATTACHED ∈ EvidenceType.GoogleCloudDisk.POSSIBLE_STATES)

/-- C8 for `DiskPartition._postprocess`. -/
theorem DiskPartition_postprocess_stateOK (e : EvidenceCore) :
    hookStateOK .DiskPartition e.state
      (DiskPartition_postprocess e).state := by
  simp only [DiskPartition_postprocess]
  split <;> split
  all_goals first
    | exact hookStateOK_refl _ _
    | exact hookStateOK_set _ _ EvidenceState.MOUNTED false
        (by decide : EvidenceState.MOUNTED ∈ EvidenceType.DiskPartition.POSSIBLE_STATES)
    | exact hookStateOK_set _ _ EvidenceState.ATTACHED false
        (by decide : EvidenceState.ATTACHED ∈ EvidenceType.DiskPartition.POSSIBLE_STATES)
    | exact hookStateOK_comp _ _ _ _
        (hookStateOK_set _ _ EvidenceState.MOUNTED false
          (by decide : EvidenceState.MOUNTED ∈
            EvidenceType.DiskPartition.POSSIBLE_STATES))
        (hookStateOK_set _ _ EvidenceState.ATTACHED false
          (by decide : EvidenceState.ATTACHED ∈
            EvidenceType.DiskPartition.POSSIBLE_STATES))

/-- C8 for `DiskPartition._preprocess`: when the hook returns normally, only
ATTACHED and MOUNTED — the possible states of DiskPartition — are ever newly
set. -/
theorem DiskPartition_preprocess_stateOK (path_specs : List String)
    (GET : Option String → Option String)
    (TI : Option String → Option String)
    (PB : Option String → Option Int → List String → Option String)
    (PL : Option String → Option Int → Option Int → Option String →
      Option String)
    (PM : Option String → Option String → Option String)
    (pdp : Option String) (pcr : List String)
    (rs : List EvidenceState) (e e2 : EvidenceCore)
    (h : DiskPartition_preprocess path_specs GET TI PB PL PM pdp pcr rs e =
      .ok e2) :
    hookStateOK .DiskPartition e.state e2.state := by
  simp only [DiskPartition_preprocess] at h
  repeat' split at h
  all_goals try exact Except.noConfusion h
  all_goals injection h with h2
  all_goals subst h2
  all_goals first
    | exact hookStateOK_refl _ _
    | exact hookStateOK_set _ _ EvidenceState.ATTACHED true
        (by decide : EvidenceState.ATTACHED ∈
          EvidenceType.DiskPartition.POSSIBLE_STATES)
    | exact hookStateOK_set _ _ EvidenceState.MOUNTED true
        (by decide : EvidenceState.MOUNTED ∈
          EvidenceType.DiskPartition.POSSIBLE_STATES)
    | exact hookStateOK_comp _ _ _ _
        (hookStateOK_set _ _ EvidenceState.ATTACHED true
          (by decide : EvidenceState.ATTACHED ∈
            EvidenceType.DiskPartition.POSSIBLE_STATES))
        (hookStateOK_set _ _ EvidenceState.MOUNTED true
          (by decide : EvidenceState.MOUNTED ∈
            EvidenceType.DiskPartition.POSSIBLE_STATES))

/-- C8 for `GoogleCloudDiskRawEmbedded._preprocess`: on its own object it
only ever newly sets ATTACHED (its declared possible state); on the parent
object it only ever newly sets MOUNTED, a flag of `GoogleCloudDisk` — the
variant the parent is documented to be — but not of
`GoogleCloudDiskRawEmbedded` itself. -/
theorem GoogleCloudDiskRawEmbedded_preprocess_stateOK
    (PMP : Option String → Option String → String)
    (TI : Option String → Option String) (PMD : List String → Nat → String)
    (PL : String → String) (join : Option String → Option String → String)
    (pit : String → Bool) (rs : List EvidenceState)
    (e parent : EvidenceCore) :
    hookStateOK .GoogleCloudDiskRawEmbedded e.state
      ((GoogleCloudDiskRawEmbedded_preprocess PMP TI PMD PL join pit rs e
        parent).1.1).state ∧
    hookStateOK .GoogleCloudDisk parent.state
      ((GoogleCloudDiskRawEmbedded_preprocess PMP TI PMD PL join pit rs e
        parent).1.2).state := by
  refine ⟨?_, ?_⟩
  · simp only [GoogleCloudDiskRawEmbedded_preprocess]
    repeat' split
    all_goals first
      | exact hookStateOK_refl _ _
      | exact hookStateOK_set _ _ EvidenceState.ATTACHED true
          (by decide : EvidenceState.ATTACHED ∈
            EvidenceType.GoogleCloudDiskRawEmbedded.POSSIBLE_STATES)
  · simp only [GoogleCloudDiskRawEmbedded_preprocess]
    repeat' split
    all_goals first
      | exact hookStateOK_refl _ _
      | exact hookStateOK_set _ _ EvidenceState.MOUNTED true
          (by decide : EvidenceState.MOUNTED ∈
            EvidenceType.GoogleCloudDisk.POSSIBLE_STATES)

/-- C8 for `GoogleCloudDiskRawEmbedded._postprocess`: clears ATTACHED on its
own object and MOUNTED on the parent. -/
theorem GoogleCloudDiskRawEmbedded_postprocess_stateOK
    (e parent : EvidenceCore) :
    hookStateOK .GoogleCloudDiskRawEmbedded e.state
      ((GoogleCloudDiskRawEmbedded_postprocess e parent).1).state ∧
    hookStateOK .GoogleCloudDisk parent.state
      ((GoogleCloudDiskRawEmbedded_postprocess e parent).2).state := by
  refine ⟨?_, ?_⟩
  · simp only [GoogleCloudDiskRawEmbedded_postprocess]
    repeat' split
    all_goals first
      | exact hookStateOK_refl _ _
      | exact hookStateOK_set _ _ EvidenceState.ATTACHED false
          (by decide : EvidenceState.ATTACHED ∈
            EvidenceType.GoogleCloudDiskRawEmbedded.POSSIBLE_STATES)
  · simp only [GoogleCloudDiskRawEmbedded_postprocess]
    repeat' split
    all_goals first
      | exact hookStateOK_refl _ _
      | exact hookStateOK_set _ _ EvidenceState.MOUNTED false
          (by decide : EvidenceState.MOUNTED ∈
            EvidenceType.GoogleCloudDisk.POSSIBLE_STATES)

/-- A GoogleCloudDiskRawEmbedded evidence over a cloud-disk parent. -/
def sampleEmbeddedDisk : EvidenceCore :=
  { etype := .GoogleCloudDiskRawEmbedded
    context_dependent := true
    resource_tracked := true
    disk_name := some "disk-1"
    resource_id := some "disk-1"
    embedded_path := some "image.dd" }

/-- The cloud-disk parent of `sampleEmbeddedDisk`, attached but not yet
mounted. -/
def sampleParentCloudDisk : EvidenceCore :=
  { etype := .GoogleCloudDisk
    resource_tracked := true
    disk_name := some "parent-disk"
    resource_id := some "parent-disk"
    device_path := some "/dev/sdb" }

/-- C8 fails as stated: `GoogleCloudDiskRawEmbedded._preprocess` (gcp.py
line 125) unconditionally sets the MOUNTED flag to true on its parent
evidence, and MOUNTED is not in `GoogleCloudDiskRawEmbedded.POSSIBLE_STATES`
(which is `[ATTACHED]`, gcp.py line 95) — so this variant's hook sets to
true a flag that does not appear in the variant's possible-states set. -/
theorem C8_counterexample :
    EvidenceState.MOUNTED ∉
      EvidenceType.GoogleCloudDiskRawEmbedded.POSSIBLE_STATES ∧
    sampleParentCloudDisk.state.get .MOUNTED = some false ∧
    ((GoogleCloudDiskRawEmbedded_preprocess (fun _ _ => "/mnt/disk")
        (fun _ => none) (fun _ _ => "/mnt/disk") (fun _ => "/dev/loop0")
        (fun _ _ => "/mnt/disk/image.dd") (fun _ => true) []
        sampleEmbeddedDisk sampleParentCloudDisk).1.2).state.get .MOUNTED
      = some true :=
  ⟨by decide, by decide, by decide⟩

/-- A RawDisk with the freshly initialized state dict. -/
def sampleFreshRawDisk : Evidence :=
  .mk { etype := .RawDisk
        source_path := some "disk.img"
        state := initialStateMap
        path_spec := none } none []

/-- C8 (amended): the state dict always has an entry for every defined
flag — it is built all-false by `Evidence.__init__` (lines 295-297) and
every node of a decoded evidence graph carries the all-false reinitialized
dict (lines 158-162) — and each variant hook preserves the entries and only
ever sets to true, on the evidence object the hook belongs to, flags of that
variant's `POSSIBLE_STATES`.  The one exception is
`GoogleCloudDiskRawEmbedded`, whose hooks additionally mutate the parent
evidence (gcp.py line 125, the documented evidence-layer-isolation break of
lines 59-63) and there only ever set MOUNTED — a flag outside
`GoogleCloudDiskRawEmbedded`'s own possible states but inside those of
`GoogleCloudDisk`, the variant the parent is documented to be. -/
theorem C8_state_invariant :
    (∀ f : EvidenceState, initialStateMap.get f = some false) ∧
    (∀ (s : SerializedEvidence) (e : Evidence),
      evidence_decode_dict s = .ok e → e.statesFresh) ∧
    (∀ (G : Option String → Option Nat) (P : Option String → String)
        (rs : List EvidenceState) (e : EvidenceCore),
      hookStateOK .RawDisk e.state (RawDisk_preprocess G P rs e).state) ∧
    (∀ e : EvidenceCore,
      hookStateOK .RawDisk e.state (RawDisk_postprocess e).state) ∧
    (∀ (M : Option String → String) (G : String → String)
        (rs : List EvidenceState) (e : EvidenceCore),
      hookStateOK .EwfDisk e.state (EwfDisk_preprocess M G rs e).state) ∧
    (∀ e : EvidenceCore,
      hookStateOK .EwfDisk e.state (EwfDisk_postprocess e).state) ∧
    (∀ (U : Option String → Option String → String) (tmp : Option String)
        (rs : List EvidenceState) (e : EvidenceCore),
      hookStateOK .CompressedDirectory e.state
        (CompressedDirectory_preprocess U tmp rs e).state) ∧
    (∀ (G : Option String → String) (P : String → Option String → String)
        (pm : Option String) (rs : List EvidenceState) (e : EvidenceCore),
      hookStateOK .DockerContainer e.state
        (DockerContainer_preprocess G P pm rs e).state) ∧
    (∀ e : EvidenceCore,
      hookStateOK .DockerContainer e.state
        (DockerContainer_postprocess e).state) ∧
    (∀ (P : Option String → Option String → Option String → String)
        (pm : Option String) (rs : List EvidenceState) (e : EvidenceCore),
      hookStateOK .ContainerdContainer e.state
        (ContainerdContainer_preprocess P pm rs e).state) ∧
    (∀ e : EvidenceCore,
      hookStateOK .ContainerdContainer e.state
        (ContainerdContainer_postprocess e).state) ∧
    (∀ (P : Option String → String × List String) (rs : List EvidenceState)
        (e : EvidenceCore),
      hookStateOK .GoogleCloudDisk e.state
        (GoogleCloudDisk_preprocess P rs e).state) ∧
    (∀ e : EvidenceCore,
      hookStateOK .GoogleCloudDisk e.state
        (GoogleCloudDisk_postprocess e).state) ∧
    (∀ (path_specs : List String) (GET : Option String → Option String)
        (TI : Option String → Option String)
        (PB : Option String → Option Int → List String → Option String)
        (PL : Option String → Option Int → Option Int → Option String →
          Option String)
        (PM : Option String → Option String → Option String)
        (pdp : Option String) (pcr : List String) (rs : List EvidenceState)
        (e e2 : EvidenceCore),
      DiskPartition_preprocess path_specs GET TI PB PL PM pdp pcr rs e =
        .ok e2 →
      hookStateOK .DiskPartition e.state e2.state) ∧
    (∀ e : EvidenceCore,
      hookStateOK .DiskPartition e.state
        (DiskPartition_postprocess e).state) ∧
    (∀ (PMP : Option String → Option String → String)
        (TI : Option String → Option String)
        (PMD : List String → Nat → String) (PL : String → String)
        (join : Option String → Option String → String)
        (pit : String → Bool) (rs : List EvidenceState)
        (e parent : EvidenceCore),
      hookStateOK .GoogleCloudDiskRawEmbedded e.state
        ((GoogleCloudDiskRawEmbedded_preprocess PMP TI PMD PL join pit rs e
          parent).1.1).state ∧
      hookStateOK .GoogleCloudDisk parent.state
        ((GoogleCloudDiskRawEmbedded_preprocess PMP TI PMD PL join pit rs e
          parent).1.2).state) ∧
    (∀ e parent : EvidenceCore,
      hookStateOK .GoogleCloudDiskRawEmbedded e.state
        ((GoogleCloudDiskRawEmbedded_postprocess e parent).1).state ∧
      hookStateOK .GoogleCloudDisk parent.state
        ((GoogleCloudDiskRawEmbedded_postprocess e parent).2).state) :=
  ⟨initialStateMap_get, decode_dict_statesFresh,
    RawDisk_preprocess_stateOK, RawDisk_postprocess_stateOK,
    EwfDisk_preprocess_stateOK, EwfDisk_postprocess_stateOK,
    CompressedDirectory_preprocess_stateOK,
    DockerContainer_preprocess_stateOK, DockerContainer_postprocess_stateOK,
    ContainerdContainer_preprocess_stateOK,
    ContainerdContainer_postprocess_stateOK,
    GoogleCloudDisk_preprocess_stateOK, GoogleCloudDisk_postprocess_stateOK,
    DiskPartition_preprocess_stateOK, DiskPartition_postprocess_stateOK,
    GoogleCloudDiskRawEmbedded_preprocess_stateOK,
    GoogleCloudDiskRawEmbedded_postprocess_stateOK⟩

/-- C8 witness: decoding a serialized attached RawDisk yields a graph whose
every node carries the fresh all-false state dict. -/
theorem C8_state_invariant_witness :
    evidence_decode_dict sampleAttachedRawDisk.serialize =
      .ok sampleFreshRawDisk ∧
    sampleFreshRawDisk.statesFresh :=
  ⟨rfl,
    C8_state_invariant.2.1 sampleAttachedRawDisk.serialize sampleFreshRawDisk
      rfl⟩

end Turbinia
